import Mathlib

/-!
MxEngine: mesh loading, material conversion and level-of-detail selection.

A shallow embedding of `src/Core/MxObject/Mesh.cpp`: `ConvertMaterial`, `Mesh::LoadFromFile`
and the small `Mesh` operations (`SetLOD`, `PushEmptyLOD`, `PopLastLOD`, ...), and of the
index wrappers of the scripting layer in `mx_engine/exports.h`.

Conventions of the embedding.

* `size_t` values are natural numbers; the one place where the source mixes `size_t` with
  `int` (`Mesh::SetLOD`) is modelled with explicit wrap-around (`toInt`, `toSizeT`).
* `float` values are rationals (`Rat`); only copies and the comparison `Ns == 0.0f` are used.
* Vectors (`MxVector`, `std::vector`) are lists; `MxHashMap` is an association list.
* Handles to engine resources (textures, transforms, buffers) are natural numbers.
* Code of the engine that `Mesh.cpp` calls but does not define (object loader, LOD
  generator, string hashing, resource factories) is gathered in `Env`.
-/

namespace MxEngine

/-! ## Machine integers -/

/-- Conversion of a `size_t` to `int`: the low 32 bits, read in two's complement. -/
def toInt (n : Nat) : Int :=
  if n % 2 ^ 32 < 2 ^ 31 then ((n % 2 ^ 32 : Nat) : Int) else ((n % 2 ^ 32 : Nat) : Int) - 2 ^ 32

/-- Conversion of an `int` to `size_t`: the value modulo `2 ^ 64`. -/
def toSizeT (i : Int) : Nat := (i % 2 ^ 64).toNat

/-- Modelled from the spec: `Min` of the engine's math utilities is defined outside `Mesh.cpp`;
`SetLOD` "clamps" with it, so it is the smaller of its two arguments. It is called with a
`size_t` and an `int`; the comparison and the result are in their common type `size_t`
(usual arithmetic conversions), so the `int` operand is first converted with `toSizeT`. -/
def Min (x : Nat) (y : Int) : Nat := if x < toSizeT y then x else toSizeT y

/-! ## Data model -/

/-- Hash of a string (`StringId`). -/
abbrev StringId := Nat

/-- Handle of a GPU texture (`GResource<Texture>`): the position of its creation call
in the graphic factory's record. -/
abbrev TextureHandle := Nat

/-- Handle of a `Transform` component. -/
abbrev TransformHandle := Nat

/-- Identity of a GPU vertex buffer (`UniqueRef<VertexBuffer>`). -/
abbrev VertexBuffer := Nat

/-- Identity of a vertex buffer layout (`UniqueRef<VertexBufferLayout>`). -/
abbrev VertexBufferLayout := Nat

/-- Three `float` components. -/
structure Vector3 where
  x : Rat
  y : Rat
  z : Rat
deriving DecidableEq

/-- Axis-aligned bounding box. -/
structure AABB where
  Min : Vector3
  Max : Vector3
deriving DecidableEq

/-- One vertex of a geometry group: position, texture coordinate, normal. -/
structure Vertex where
  Position : Vector3
  TexCoord : Rat × Rat
  Normal : Vector3
deriving DecidableEq

/-- Raw material descriptor produced by the object loader (`MaterialInfo`).
An empty string in a `map_*` field means that the material has no such texture. -/
structure MaterialInfo where
  name : String
  map_Ka : String
  map_Kd : String
  map_Ks : String
  map_Ke : String
  map_d : String
  map_height : String
  map_normal : String
  Ns : Rat
  Ni : Rat
  d : Rat
  Tr : Rat
  Tf : Vector3
  Ka : Vector3
  Kd : Vector3
  Ks : Vector3
  Ke : Vector3
  illum : Int
deriving DecidableEq

/-- GPU material resource (`Material`); a texture slot is `none` when it is unbound. -/
structure Material where
  map_Ka : Option TextureHandle
  map_Kd : Option TextureHandle
  map_Ks : Option TextureHandle
  map_Ke : Option TextureHandle
  map_d : Option TextureHandle
  map_height : Option TextureHandle
  map_normal : Option TextureHandle
  Ns : Rat
  Ni : Rat
  d : Rat
  Tr : Rat
  Tf : Vector3
  Ka : Vector3
  Kd : Vector3
  Ks : Vector3
  Ke : Vector3
  illum : Int
  f_Ka : Rat
  f_Kd : Rat
  reflection : Rat
  displacement : Rat
  baseColor : Vector3
deriving DecidableEq

/-- One geometry group of an object description (`MeshInfo`). The `material` pointer is
`none` for `nullptr` and otherwise the element offset `material - materials.data()`. -/
structure MeshInfo where
  name : String
  vertecies : List Vertex
  indicies : List Nat
  material : Option Nat
  useTexture : Bool
deriving DecidableEq

/-- Object description produced by the object loader (`ObjectInfo`). -/
structure ObjectInfo where
  boundingBox : AABB
  meshes : List MeshInfo
  materials : List MaterialInfo
deriving DecidableEq

/-- One drawable unit. `vertecies` and `indicies` are the contents of `MeshData`;
`instanced` records the `AddInstancedBuffer` calls made on the vertex array of `MeshData`. -/
structure SubMesh where
  materialId : Nat
  transform : TransformHandle
  Name : StringId
  vertecies : List Vertex
  indicies : List Nat
  instanced : List (VertexBuffer × VertexBufferLayout)
deriving DecidableEq

/-- One level of detail (`Mesh::LOD`). -/
abbrev LOD := List SubMesh

/-- The `Mesh` aggregate. -/
structure Mesh where
  LODs : List LOD
  currentLOD : Nat
  boundingBox : AABB
  VBOs : List VertexBuffer
  VBLs : List VertexBufferLayout
deriving DecidableEq

/-- The part of `MeshRenderer` that loading touches: the material table, whose entries are
nullable resource handles. -/
structure MeshRenderer where
  Materials : List (Option Material)
deriving DecidableEq

/-! ## Mesh operations -/

namespace Mesh

/-- `Mesh::GetSubmeshes`: `LODs[currentLOD]`, `none` when the index is out of range. -/
def GetSubmeshes (m : Mesh) : Option LOD := m.LODs[m.currentLOD]?

/-- `Mesh::PushEmptyLOD`. -/
def PushEmptyLOD (m : Mesh) : Mesh := { m with LODs := m.LODs ++ [[]] }

/-- `Mesh::PopLastLOD`. -/
def PopLastLOD (m : Mesh) : Mesh :=
  if !m.LODs.isEmpty then { m with LODs := m.LODs.dropLast } else m

/-- `Mesh::SetLOD`: `currentLOD = Min(LOD, (int)LODs.size() - 1)`. -/
def SetLOD (m : Mesh) (LOD : Nat) : Mesh :=
  { m with currentLOD := Min LOD (toInt m.LODs.length - 1) }

/-- `Mesh::GetLOD`. -/
def GetLOD (m : Mesh) : Nat := m.currentLOD

/-- `Mesh::GetLODCount`. -/
def GetLODCount (m : Mesh) : Nat := m.LODs.length

/-- `Mesh::GetAABB`. -/
def GetAABB (m : Mesh) : AABB := m.boundingBox

/-- `Mesh::SetAABB`. -/
def SetAABB (m : Mesh) (boundingBox : AABB) : Mesh := { m with boundingBox := boundingBox }

/-- `Mesh::AddInstancedBuffer`: the buffer and layout are pushed, then `VBOs.back()` and
`VBLs.back()` (the two values just pushed) are attached to every submesh of every level. -/
def AddInstancedBuffer (m : Mesh) (vbo : VertexBuffer) (vbl : VertexBufferLayout) : Mesh :=
  { m with
    VBOs := m.VBOs ++ [vbo]
    VBLs := m.VBLs ++ [vbl]
    LODs := m.LODs.map fun meshes =>
      meshes.map fun mesh => { mesh with instanced := mesh.instanced ++ [(vbo, vbl)] } }

/-- `Mesh::GetBufferCount`. -/
def GetBufferCount (m : Mesh) : Nat := m.VBOs.length

end Mesh

/-- The invariant `0 <= currentLOD < number of LOD levels`. -/
def Mesh.LODInRange (m : Mesh) : Prop := m.currentLOD < m.LODs.length

instance (m : Mesh) : Decidable m.LODInRange := by
  unfold Mesh.LODInRange; infer_instance

/-! ## Collaborators of the loading pipeline -/

/-- Error raised by the object loader on an unreadable or malformed file. -/
abbrev ParseError := String

/-- Engine code that `Mesh.cpp` calls and does not define.

* `Load` is `ObjectLoader::Load`; by the specification it fails with a `ParseError` on
  malformed or unreadable input.
* `CreateObject obj f` is `LODGenerator(obj).CreateObject(f)`.
* `MakeStringId` hashes a string.
* `CreateMaterial` is the value of a freshly created `Material` resource
  (`ResourceFactory::Create<Material>()`).
* `oobMaterialId k i` and `oobTransform k i` stand for the unspecified values obtained when
  the assembly of level `k` reads `materialIds[i]` or `submeshTransforms[i]` past the end
  of the vector. -/
structure Env where
  Load : String → Except ParseError ObjectInfo
  CreateObject : ObjectInfo → Rat → ObjectInfo
  MakeStringId : String → StringId
  CreateMaterial : Material
  oobMaterialId : Nat → Nat → Nat
  oobTransform : Nat → Nat → TransformHandle

/-- Factories of the engine that loading changes: `Transforms` counts the `Transform`
components created so far (the next handle), `Textures` records the file of every
`GraphicFactory::Create<Texture>` call so far (a texture handle is a position in it). -/
structure Engine where
  Transforms : Nat
  Textures : List String
deriving DecidableEq

/-- The `textures` hash map of one load together with the graphic factory's record. -/
structure TexState where
  textures : List (StringId × TextureHandle)
  created : List String
deriving DecidableEq

/-! ## Material conversion -/

/-- The macro `MAKE_TEX(tex)` of `ConvertMaterial`, for one texture field: `tex` is the raw
path, `slot` the current value of the field of the material under construction. Returns the
new value of the field and the new texture state. -/
def MAKE_TEX (env : Env) (tex : String) (slot : Option TextureHandle) (s : TexState) :
    Option TextureHandle × TexState :=
  if tex ≠ "" then
    let id := env.MakeStringId tex
    let s1 : TexState :=
      if s.textures.lookup id = none then
        { textures := (id, s.created.length) :: s.textures, created := s.created ++ [tex] }
      else s
    (s1.textures.lookup id, s1)
  else (slot, s)

/-- `ConvertMaterial(mat, textures)`. -/
def ConvertMaterial (env : Env) (mat : MaterialInfo) (s : TexState) : Material × TexState :=
  let material := env.CreateMaterial
  let r1 := MAKE_TEX env mat.map_Ka material.map_Ka s
  let r2 := MAKE_TEX env mat.map_Kd material.map_Kd r1.2
  let r3 := MAKE_TEX env mat.map_Ks material.map_Ks r2.2
  let r4 := MAKE_TEX env mat.map_Ke material.map_Ke r3.2
  let r5 := MAKE_TEX env mat.map_d material.map_d r4.2
  let r6 := MAKE_TEX env mat.map_height material.map_height r5.2
  let r7 := MAKE_TEX env mat.map_normal material.map_normal r6.2
  let material : Material :=
    { material with
      map_Ka := r1.1, map_Kd := r2.1, map_Ks := r3.1, map_Ke := r4.1
      map_d := r5.1, map_height := r6.1, map_normal := r7.1
      Tf := mat.Tf, Ka := mat.Ka, Kd := mat.Kd, Ke := mat.Ke, Ks := mat.Ks
      illum := mat.illum, Ns := mat.Ns, Ni := mat.Ni, d := mat.d }
  let material : Material := if material.Ns = 0 then { material with Ns := 128 } else material
  (material, r7.2)

/-! ## Loading -/

/-- The decimation factors `LODfactors` of `LoadFromFile`
(`0.001f, 0.01f, 0.05f, 0.15f, 0.3f`). -/
def LODfactors : List Rat := [1 / 1000, 1 / 100, 1 / 20, 3 / 20, 3 / 10]

/-- `MxVector::resize(n)` with `v` as the value of new elements. -/
def resize {α : Type} (l : List α) (n : Nat) (v : α) : List α :=
  l.take n ++ List.replicate (n - l.length) v

/-- First loop of `LoadFromFile`: one `Transform` component is created per group and its
handle pushed onto `submeshTransforms`. -/
def createTransforms : List MeshInfo → List TransformHandle → Engine →
    List TransformHandle × Engine
  | [], submeshTransforms, e => (submeshTransforms, e)
  | _ :: rest, submeshTransforms, e =>
    createTransforms rest (submeshTransforms ++ [e.Transforms])
      { e with Transforms := e.Transforms + 1 }

/-- Loop `Materials[i] = ConvertMaterial(materials[i], textures)` of `LoadFromFile`,
from index `i` on. -/
def fillMaterials (env : Env) : List MaterialInfo → Nat → List (Option Material) → TexState →
    List (Option Material) × TexState
  | [], _, Materials, s => (Materials, s)
  | mat :: rest, i, Materials, s =>
    let r := ConvertMaterial env mat s
    fillMaterials env rest (i + 1) (Materials.set i (some r.1)) r.2

/-- Loop of `LoadFromFile` that pushes a material offset for each group that uses a texture
and has a material. -/
def pushMaterialIds : List MeshInfo → List Nat → List Nat
  | [], materialIds => materialIds
  | group :: rest, materialIds =>
    match group.useTexture, group.material with
    | true, some offset => pushMaterialIds rest (materialIds ++ [offset])
    | _, _ => pushMaterialIds rest materialIds

/-- The vector `LODdata` once the original has been inserted in front of the generated
descriptions. -/
def LODdata (env : Env) (objectInfo : ObjectInfo) : List ObjectInfo :=
  objectInfo :: LODfactors.map (env.CreateObject objectInfo)

/-- Inner loop of the assembly: submeshes of level `k` for the groups from index `i` on. -/
def assembleGroups (env : Env) (materialIds : List Nat)
    (submeshTransforms : List TransformHandle) (k : Nat) : Nat → List MeshInfo → LOD
  | _, [] => []
  | i, meshData :: rest =>
    { materialId := materialIds.getD i (env.oobMaterialId k i)
      transform := submeshTransforms.getD i (env.oobTransform k i)
      Name := env.MakeStringId meshData.name
      vertecies := meshData.vertecies
      indicies := meshData.indicies
      instanced := [] } ::
    assembleGroups env materialIds submeshTransforms k (i + 1) rest

/-- Outer loop of the assembly: one level per description, from level `k` on. -/
def assembleLODs (env : Env) (materialIds : List Nat)
    (submeshTransforms : List TransformHandle) : Nat → List ObjectInfo → List LOD
  | _, [] => []
  | k, lod :: rest =>
    assembleGroups env materialIds submeshTransforms k 0 lod.meshes ::
    assembleLODs env materialIds submeshTransforms (k + 1) rest

/-- Everything `LoadFromFile` reads and writes: the mesh, the renderer behind the
`meshRenderer` pointer (`none` for `nullptr`) and the engine factories. -/
structure LoadState where
  mesh : Mesh
  meshRenderer : Option MeshRenderer
  engine : Engine
deriving DecidableEq

/-- Material part of `LoadFromFile` (the block under `if (meshRenderer != nullptr)`):
returns `materialIds`, the renderer and the graphic factory's record. -/
def loadMaterials (env : Env) (objectInfo : ObjectInfo) (meshRenderer : Option MeshRenderer)
    (created : List String) : List Nat × Option MeshRenderer × List String :=
  let materialIds := List.replicate objectInfo.meshes.length 0
  match meshRenderer with
  | none => (materialIds, none, created)
  | some renderer =>
    let textures : TexState := { textures := [], created := created }
    let materialIds := resize materialIds 0 0
    let Materials := resize renderer.Materials objectInfo.materials.length none
    let r := fillMaterials env objectInfo.materials 0 Materials textures
    (pushMaterialIds objectInfo.meshes materialIds, some { Materials := r.1 }, r.2.created)

/-- `Mesh::LoadFromFile(filepath, meshRenderer)`: the outcome and the state afterwards. -/
def LoadFromFile (env : Env) (filepath : String) (st : LoadState) :
    Except ParseError Unit × LoadState :=
  match env.Load filepath with
  | .error e => (.error e, st)
  | .ok objectInfo =>
    let boundingBox := objectInfo.boundingBox
    let tr := createTransforms objectInfo.meshes [] st.engine
    let submeshTransforms := tr.1
    let mats := loadMaterials env objectInfo st.meshRenderer tr.2.Textures
    let materialIds := mats.1
    let LODs := assembleLODs env materialIds submeshTransforms 0 (LODdata env objectInfo)
    (.ok (),
     { mesh := { st.mesh with boundingBox := boundingBox, LODs := LODs }
       meshRenderer := mats.2.1
       engine := { tr.2 with Textures := mats.2.2 } })

/-! ## Index wrappers of the scripting layer (`exports.h`)

Containers are lists. The index is a C `int`, given as an integer. Where the container
reports its size as a `size_t` (`size()`, `GetCount()`), the comparison `index < size` is
made after converting the index to `size_t`; the math types report `length()` as an `int`,
and the comparison is a signed one. A wrapper that returns a reference is modelled by the
element it refers to. -/

/-- A Python error set with `PyErr_SetString` and raised with `throw_error_already_set`. -/
inductive PyError where
  | IndexError (msg : String)
deriving DecidableEq

/-- `LightContainerIndexGetWrapper(v, index)`. -/
def LightContainerIndexGetWrapper {α : Type} (v : List α) (index : Int) : Except PyError α :=
  if h : index ≥ 0 ∧ toSizeT index < v.length then
    .ok (v.get ⟨toSizeT index, h.2⟩)
  else
    .error (.IndexError "index out of range")

/-- `VectorIndexSetWrapper(v, index, value)`: the outcome and the vector afterwards. -/
def VectorIndexSetWrapper {α : Type} (v : List α) (index : Int) (value : α) :
    Except PyError Unit × List α :=
  if index ≥ 0 ∧ index < (v.length : Int) then
    (.ok (), v.set index.toNat value)
  else
    (.error (.IndexError "index out of range"), v)

/-- `StdVectorGetWrapper(v, index)`. -/
def StdVectorGetWrapper {α : Type} (v : List α) (index : Int) : Except PyError α :=
  if h : index ≥ 0 ∧ toSizeT index < v.length then
    .ok (v.get ⟨toSizeT index, h.2⟩)
  else
    .error (.IndexError "index out of range")

/-- `StdVectorGetRefWrapper(v, index)`. -/
def StdVectorGetRefWrapper {α : Type} (v : List α) (index : Int) : Except PyError α :=
  if h : index ≥ 0 ∧ toSizeT index < v.length then
    .ok (v.get ⟨toSizeT index, h.2⟩)
  else
    .error (.IndexError "index out of range")

/-- `StdVectorSetWrapper(v, index, value)`: the outcome and the vector afterwards. -/
def StdVectorSetWrapper {α : Type} (v : List α) (index : Int) (value : α) :
    Except PyError Unit × List α :=
  if index ≥ 0 ∧ toSizeT index < v.length then
    (.ok (), v.set (toSizeT index) value)
  else
    (.error (.IndexError "index out of range"), v)

/-- `VectorIndexGetWrapper(v, index)`. -/
def VectorIndexGetWrapper {α : Type} (v : List α) (index : Int) : Except PyError α :=
  if h : index ≥ 0 ∧ index < (v.length : Int) then
    .ok (v.get ⟨index.toNat, by omega⟩)
  else
    .error (.IndexError "index out of range")

/-- `MatrixIndexSetWrapper(m, index, value)`: the outcome and the matrix afterwards. -/
def MatrixIndexSetWrapper {α : Type} (m : List α) (index : Int) (value : α) :
    Except PyError Unit × List α :=
  if index ≥ 0 ∧ index < (m.length : Int) then
    (.ok (), m.set index.toNat value)
  else
    (.error (.IndexError "index out of range"), m)

/-- `MatrixIndexGetWrapper(m, index)`. -/
def MatrixIndexGetWrapper {α : Type} (m : List α) (index : Int) : Except PyError α :=
  if h : index ≥ 0 ∧ index < (m.length : Int) then
    .ok (m.get ⟨index.toNat, by omega⟩)
  else
    .error (.IndexError "index out of range")

/-! ## Notions used to state the properties -/

/-- What is claimed of an index getter `G` at container `v` and index `i`: within
`0 <= i < length v` it returns the element at position `i`; otherwise it raises the
`IndexError` "index out of range", whatever the elements of the container are. -/
def IndexGetContract {α : Type} (G : List α → Int → Except PyError α) (v : List α) (i : Int) :
    Prop :=
  (0 ≤ i → i < (v.length : Int) → ∃ x, v[i.toNat]? = some x ∧ G v i = .ok x) ∧
  (¬ (0 ≤ i ∧ i < (v.length : Int)) →
    ∀ w : List α, w.length = v.length → G w i = .error (.IndexError "index out of range"))

/-- What is claimed of an index setter `S` at container `v`, index `i` and value `x`: within
`0 <= i < length v` it succeeds and leaves a container of the same length with `x` at
position `i` and every other element as before; otherwise it raises the `IndexError` and
leaves the container as it was. -/
def IndexSetContract {α : Type} (S : List α → Int → α → Except PyError Unit × List α)
    (v : List α) (i : Int) (x : α) : Prop :=
  (0 ≤ i → i < (v.length : Int) →
    (S v i x).1 = .ok () ∧ (S v i x).2.length = v.length ∧ (S v i x).2[i.toNat]? = some x ∧
    ∀ j : Nat, j ≠ i.toNat → (S v i x).2[j]? = v[j]?) ∧
  (¬ (0 ≤ i ∧ i < (v.length : Int)) →
    S v i x = (.error (.IndexError "index out of range"), v))


/-- The seven texture paths of a raw material, in the order in which `ConvertMaterial`
treats them. -/
def texPaths (mat : MaterialInfo) : List String :=
  [mat.map_Ka, mat.map_Kd, mat.map_Ks, mat.map_Ke, mat.map_d, mat.map_height, mat.map_normal]

/-- The seven texture slots of a material resource, in the same order. -/
def texSlots (m : Material) : List (Option TextureHandle) :=
  [m.map_Ka, m.map_Kd, m.map_Ks, m.map_Ke, m.map_d, m.map_height, m.map_normal]

/-- The non-empty texture paths that a sequence of raw materials refers to (with repeats). -/
def referencedTextures (mats : List MaterialInfo) : List String :=
  (mats.flatMap texPaths).filter fun p => p ≠ ""

/-- All texture slots of a material table, each paired with the raw path it was made from:
entry `i` of the table is read against raw material `i`; a null entry has no bound slot. -/
def slotBindings (mats : List MaterialInfo) (Materials : List (Option Material)) :
    List (String × Option TextureHandle) :=
  (mats.zip Materials).flatMap fun x =>
    match x.2 with
    | some m => (texPaths x.1).zip (texSlots m)
    | none => (texPaths x.1).map fun p => (p, none)

/-- The material table behind a renderer pointer (empty for `nullptr`). -/
def materialsOf (meshRenderer : Option MeshRenderer) : List (Option Material) :=
  match meshRenderer with
  | some renderer => renderer.Materials
  | none => []

/-- The texture-creation calls made between two states of the engine factories. -/
def texturesCreated (before after : Engine) : List String :=
  after.Textures.drop before.Textures.length

/-- Effect of one `MAKE_TEX` on the texture state. -/
def stepTex (env : Env) (s : TexState) (tex : String) : TexState := (MAKE_TEX env tex none s).2

/-- A run of `MAKE_TEX` over a list of (raw path, current slot value) pairs. -/
def makeTexAll (env : Env) : List (String × Option TextureHandle) → TexState →
    List (Option TextureHandle) × TexState
  | [], s => ([], s)
  | x :: rest, s =>
    ((MAKE_TEX env x.1 x.2 s).1 :: (makeTexAll env rest (MAKE_TEX env x.1 x.2 s).2).1,
     (makeTexAll env rest (MAKE_TEX env x.1 x.2 s).2).2)

/-- The successive `ConvertMaterial` calls of one load, sharing the texture state. -/
def convertAll (env : Env) : List MaterialInfo → TexState → List Material × TexState
  | [], s => ([], s)
  | mat :: rest, s =>
    ((ConvertMaterial env mat s).1 :: (convertAll env rest (ConvertMaterial env mat s).2).1,
     (convertAll env rest (ConvertMaterial env mat s).2).2)

/-- Invariant of the texture state during one load: `fresh` are the files created since the
record was `base`, `seen` the paths treated so far. -/
def TexInv (env : Env) (base seen fresh : List String) (s : TexState) : Prop :=
  s.created = base ++ fresh ∧ fresh.Nodup ∧
  (∀ p ∈ fresh, p ∈ seen ∧ p ≠ "") ∧
  (∀ p ∈ fresh, s.textures.lookup (env.MakeStringId p) ≠ none) ∧
  (∀ k, s.textures.lookup k ≠ none → ∃ p ∈ fresh, env.MakeStringId p = k) ∧
  (∀ p ∈ seen, p ≠ "" → s.textures.lookup (env.MakeStringId p) ≠ none)

/-- Name id, vertices and indices of the submeshes of a level. -/
def levelGeometry (lod : LOD) : List (StringId × List Vertex × List Nat) :=
  lod.map fun sm => (sm.Name, sm.vertecies, sm.indicies)

/-- What the assembly makes of the groups of a description: the id of the group's name, its
vertices and its indices. -/
def descriptionGeometry (env : Env) (obj : ObjectInfo) :
    List (StringId × List Vertex × List Nat) :=
  obj.meshes.map fun g => (env.MakeStringId g.name, g.vertecies, g.indicies)

/-- Total index count of a level: the sum of the lengths of the index sequences of its
submeshes. -/
def totalIndices (lod : LOD) : Nat := (lod.map fun sm => sm.indicies.length).sum

/-- Total index count of an object description. -/
def descriptionIndices (obj : ObjectInfo) : Nat :=
  (obj.meshes.map fun g => g.indicies.length).sum

/-- Everything of a submesh but the instanced buffers attached to its vertex array. -/
def SubMesh.core (sm : SubMesh) : Nat × TransformHandle × StringId × List Vertex × List Nat :=
  (sm.materialId, sm.transform, sm.Name, sm.vertecies, sm.indicies)

/-! ## Concrete inputs used in examples -/

/-- The zero vector. -/
def zeroVector : Vector3 := ⟨0, 0, 0⟩

/-- A degenerate bounding box at the origin. -/
def zeroBox : AABB := ⟨zeroVector, zeroVector⟩

/-- The unit box. -/
def unitBox : AABB := ⟨zeroVector, ⟨1, 1, 1⟩⟩

/-- A mesh without any LOD level (nothing loaded, or every level popped). -/
def emptyMesh : Mesh := ⟨[], 0, zeroBox, [], []⟩

/-- A mesh with three empty levels, such as `PushEmptyLOD` builds. -/
def threeLevelMesh : Mesh := ⟨[[], [], []], 0, zeroBox, [], []⟩

/-- A mesh whose LOD table has `2 ^ 31 + 1` empty levels. -/
def hugeMesh : Mesh := ⟨List.replicate 2147483649 [], 0, zeroBox, [], []⟩

/-- A material resource as created by the resource factory in the examples: nothing bound,
every scalar zero. -/
def blankMaterial : Material :=
  { map_Ka := none, map_Kd := none, map_Ks := none, map_Ke := none, map_d := none
    map_height := none, map_normal := none
    Ns := 0, Ni := 0, d := 0, Tr := 0
    Tf := zeroVector, Ka := zeroVector, Kd := zeroVector, Ks := zeroVector, Ke := zeroVector
    illum := 0, f_Ka := 0, f_Kd := 0, reflection := 0, displacement := 0
    baseColor := zeroVector }

/-- A raw material with a diffuse texture `tex.png` and no specular exponent. -/
def texturedMaterial : MaterialInfo :=
  { name := "stone"
    map_Ka := "", map_Kd := "tex.png", map_Ks := "", map_Ke := "", map_d := ""
    map_height := "", map_normal := ""
    Ns := 0, Ni := 1, d := 1, Tr := 1 / 2
    Tf := ⟨1, 1, 1⟩, Ka := ⟨1, 1, 1⟩, Kd := ⟨1, 1 / 2, 0⟩, Ks := zeroVector, Ke := zeroVector
    illum := 2 }

/-- A second raw material: the same diffuse texture, a normal map, specular exponent 50. -/
def shinyMaterial : MaterialInfo :=
  { texturedMaterial with name := "metal", map_normal := "n.png", Ns := 50 }

/-- A vertex at the given position. -/
def vertexAt (x y z : Rat) : Vertex := ⟨⟨x, y, z⟩, (0, 0), ⟨0, 0, 1⟩⟩

/-- A group without material that does not sample a texture: one triangle. -/
def untexturedGroup : MeshInfo :=
  { name := "plain"
    vertecies := [vertexAt 0 0 0, vertexAt 1 0 0, vertexAt 0 1 0]
    indicies := [0, 1, 2]
    material := none
    useTexture := false }

/-- A group that samples a texture and refers to the material at offset 0: two triangles. -/
def texturedGroup : MeshInfo :=
  { name := "textured"
    vertecies := [vertexAt 0 0 0, vertexAt 1 0 0, vertexAt 0 1 0, vertexAt 1 1 0]
    indicies := [0, 1, 2, 2, 1, 3]
    material := some 0
    useTexture := true }

/-- A model with two groups, the first untextured, the second textured with `tex.png`, and
two materials that share the texture file `tex.png`. -/
def sampleObject : ObjectInfo :=
  { boundingBox := unitBox
    meshes := [untexturedGroup, texturedGroup]
    materials := [texturedMaterial, shinyMaterial] }

/-- A model whose only group is textured, with the same two materials. -/
def texturedObject : ObjectInfo :=
  { boundingBox := unitBox
    meshes := [texturedGroup]
    materials := [texturedMaterial, shinyMaterial] }

/-- The same model with the textured group first. -/
def reversedObject : ObjectInfo :=
  { sampleObject with meshes := [texturedGroup, untexturedGroup] }

/-- An environment in which `model.obj` parses to `sampleObject`, `reversed.obj` to
`reversedObject` and `textured.obj` to `texturedObject`, every other file is rejected, the
LOD generator returns its input unchanged, and strings hash to their length. -/
def sampleEnv : Env :=
  { Load := fun path =>
      if path = "model.obj" then .ok sampleObject
      else if path = "reversed.obj" then .ok reversedObject
      else if path = "textured.obj" then .ok texturedObject
      else .error "cannot read file"
    CreateObject := fun obj _ => obj
    MakeStringId := String.length
    CreateMaterial := blankMaterial
    oobMaterialId := fun _ _ => 0
    oobTransform := fun _ _ => 0 }

/-- The sample environment with `oob` as the values read past the end of `materialIds`. -/
def sampleEnvReading (oob : Nat → Nat → Nat) : Env := { sampleEnv with oobMaterialId := oob }

/-- The sample environment with a LOD generator that keeps only the first group. -/
def droppingEnv : Env :=
  { sampleEnv with CreateObject := fun obj _ => { obj with meshes := obj.meshes.take 1 } }

/-- The sample environment with a LOD generator that leaves the model as it is for factors
up to `0.01` and keeps only the first triangle of every group for larger factors. -/
def decimatingEnv : Env :=
  { sampleEnv with
    CreateObject := fun obj f =>
      if f ≤ 1 / 100 then obj
      else { obj with meshes := obj.meshes.map fun g => { g with indicies := g.indicies.take 3 } } }

/-- A renderer with an empty material table. -/
def emptyRenderer : MeshRenderer := ⟨[]⟩

/-- Engine factories before anything was created. -/
def freshEngine : Engine := ⟨0, []⟩

/-- A submesh with one triangle and the instanced buffer `(7, 9)` attached. -/
def sampleSubMesh : SubMesh :=
  { materialId := 0, transform := 4, Name := 5
    vertecies := [vertexAt 0 0 0, vertexAt 1 0 0, vertexAt 0 1 0]
    indicies := [0, 1, 2]
    instanced := [(7, 9)] }

/-- A mesh with two levels of one and two submeshes, the first level selected, and one
instanced buffer. -/
def instancedMesh : Mesh :=
  ⟨[[sampleSubMesh], [sampleSubMesh, { sampleSubMesh with transform := 6 }]], 0, unitBox, [7], [9]⟩

/-- A mesh with three empty levels of which the last is selected. -/
def lastOfThreeMesh : Mesh := ⟨[[], [], []], 2, zeroBox, [], []⟩

/-- A mesh with eight empty levels of which the last is selected. -/
def eightLevelMesh : Mesh := ⟨[[], [], [], [], [], [], [], []], 7, zeroBox, [7], [9]⟩

/-! ## Level-of-detail selection -/

theorem toSizeT_toInt_pred (c : Nat) (h1 : 1 ≤ c) (h2 : c ≤ 2147483647) :
    toSizeT (toInt c - 1) = c - 1 := by
  unfold toSizeT toInt
  have hc : c % 2 ^ 32 = c := Nat.mod_eq_of_lt (by omega)
  rw [hc]
  split <;> omega

theorem SetLOD_currentLOD (m : Mesh) (n : Nat) (h1 : 1 ≤ m.LODs.length)
    (h2 : m.LODs.length ≤ 2147483647) :
    (m.SetLOD n).currentLOD = min n (m.LODs.length - 1) := by
  simp only [Mesh.SetLOD, Min, toSizeT_toInt_pred _ h1 h2]
  split <;> omega

theorem SetLOD_LODs (m : Mesh) (n : Nat) : (m.SetLOD n).LODs = m.LODs := rfl

theorem SetLOD_currentLOD_def (m : Mesh) (n : Nat) :
    (m.SetLOD n).currentLOD = Min n (toInt m.LODs.length - 1) := rfl

theorem GetLOD_def (m : Mesh) : m.GetLOD = m.currentLOD := rfl

theorem GetLODCount_def (m : Mesh) : m.GetLODCount = m.LODs.length := rfl

theorem hugeMesh_length : hugeMesh.LODs.length = 2147483649 := List.length_replicate _ _

theorem hugeMesh_SetLOD : (hugeMesh.SetLOD 2147483649).currentLOD = 2147483649 := by
  rw [SetLOD_currentLOD_def, hugeMesh_length]
  decide

/-- C1 (as stated) fails: on a mesh without LOD levels the interval `[0, count-1]` is empty, so
`currentLOD` cannot lie in it after `SetLOD(0)`; and on a table of `2 ^ 31 + 1` levels the
`int` cast wraps, so that `SetLOD(2 ^ 31 + 1)` leaves `currentLOD = count`. -/
theorem SetLOD_range_counterexample :
    ((emptyMesh.SetLOD 0).GetLODCount = 0 ∧
      ¬ (((emptyMesh.SetLOD 0).currentLOD : Int) ≤ ((emptyMesh.SetLOD 0).GetLODCount : Int) - 1)) ∧
    ((hugeMesh.SetLOD 2147483649).GetLODCount = 2147483649 ∧
      ¬ (((hugeMesh.SetLOD 2147483649).currentLOD : Int) ≤
          ((hugeMesh.SetLOD 2147483649).GetLODCount : Int) - 1)) := by
  have hc : (hugeMesh.SetLOD 2147483649).GetLODCount = 2147483649 := by
    rw [GetLODCount_def, SetLOD_LODs, hugeMesh_length]
  refine ⟨⟨by decide, by decide⟩, hc, ?_⟩
  rw [hc, hugeMesh_SetLOD]
  decide

/-- C1 (amended): for every mesh whose LOD table has at least one and at most `2 ^ 31 - 1`
levels and every requested level `n`, `SetLOD n` (a total function: it cannot fail) leaves
the table untouched and `currentLOD` in `[0, count-1]`. -/
theorem SetLOD_in_range (m : Mesh) (n : Nat) (h1 : 1 ≤ m.GetLODCount)
    (h2 : m.GetLODCount ≤ 2147483647) :
    (m.SetLOD n).GetLODCount = m.GetLODCount ∧
    (0 : Int) ≤ ((m.SetLOD n).currentLOD : Int) ∧
    ((m.SetLOD n).currentLOD : Int) ≤ ((m.SetLOD n).GetLODCount : Int) - 1 := by
  unfold Mesh.GetLODCount at *
  rw [SetLOD_currentLOD m n h1 h2, SetLOD_LODs]
  omega

theorem SetLOD_in_range_witness :
    (threeLevelMesh.SetLOD 7).GetLODCount = threeLevelMesh.GetLODCount ∧
    (0 : Int) ≤ ((threeLevelMesh.SetLOD 7).currentLOD : Int) ∧
    ((threeLevelMesh.SetLOD 7).currentLOD : Int) ≤ ((threeLevelMesh.SetLOD 7).GetLODCount : Int) - 1 :=
  SetLOD_in_range threeLevelMesh 7 (by decide) (by decide)

/-- C2 (as stated) fails on a LOD table of `2 ^ 31 + 1` levels: `(int)LODs.size()` wraps to a
negative number, and `SetLOD(2 ^ 31 + 1)` stores `2 ^ 31 + 1` instead of `count - 1 = 2 ^ 31`. -/
theorem SetLOD_min_counterexample :
    1 ≤ hugeMesh.GetLODCount ∧
    (hugeMesh.SetLOD 2147483649).GetLOD ≠ min 2147483649 (hugeMesh.GetLODCount - 1) := by
  rw [GetLOD_def, GetLODCount_def, hugeMesh_SetLOD, hugeMesh_length]
  decide

/-- C2 (amended): for every mesh with `1 <= count <= 2 ^ 31 - 1` LOD levels and every `n`,
after `SetLOD n` the getter `GetLOD` returns `min n (count - 1)`: level `n` itself when
`n < count`, the last level `count - 1` when `n >= count`. -/
theorem SetLOD_GetLOD (m : Mesh) (n : Nat) (h1 : 1 ≤ m.GetLODCount)
    (h2 : m.GetLODCount ≤ 2147483647) :
    (m.SetLOD n).GetLOD = min n (m.GetLODCount - 1) ∧
    (if n < m.GetLODCount then (m.SetLOD n).GetLOD = n
      else (m.SetLOD n).GetLOD = m.GetLODCount - 1) := by
  unfold Mesh.GetLODCount at *
  have h := SetLOD_currentLOD m n h1 h2
  unfold Mesh.GetLOD
  rw [h]
  refine ⟨rfl, ?_⟩
  split <;> omega

theorem SetLOD_GetLOD_witness :
    ((threeLevelMesh.SetLOD 1).GetLOD = min 1 (threeLevelMesh.GetLODCount - 1) ∧
      (if 1 < threeLevelMesh.GetLODCount then (threeLevelMesh.SetLOD 1).GetLOD = 1
        else (threeLevelMesh.SetLOD 1).GetLOD = threeLevelMesh.GetLODCount - 1)) ∧
    (threeLevelMesh.SetLOD 1).GetLOD = 1 :=
  ⟨SetLOD_GetLOD threeLevelMesh 1 (by decide) (by decide), by decide⟩

/-! ## Loading: shape of the LOD table -/

theorem LoadFromFile_ok (env : Env) (filepath : String) (st : LoadState) (obj : ObjectInfo)
    (h : env.Load filepath = .ok obj) :
    LoadFromFile env filepath st =
      (.ok (),
       { mesh :=
           { st.mesh with
             boundingBox := obj.boundingBox
             LODs := assembleLODs env
               (loadMaterials env obj st.meshRenderer
                 (createTransforms obj.meshes [] st.engine).2.Textures).1
               (createTransforms obj.meshes [] st.engine).1 0 (LODdata env obj) }
         meshRenderer :=
           (loadMaterials env obj st.meshRenderer
             (createTransforms obj.meshes [] st.engine).2.Textures).2.1
         engine :=
           { (createTransforms obj.meshes [] st.engine).2 with
             Textures :=
               (loadMaterials env obj st.meshRenderer
                 (createTransforms obj.meshes [] st.engine).2.Textures).2.2 } }) := by
  simp only [LoadFromFile, h]

theorem assembleLODs_length (env : Env) (ids : List Nat) (trs : List TransformHandle)
    (k : Nat) (l : List ObjectInfo) : (assembleLODs env ids trs k l).length = l.length := by
  induction l generalizing k with
  | nil => rfl
  | cons lod rest ih => simp [assembleLODs, ih]

theorem LODdata_length (env : Env) (obj : ObjectInfo) :
    (LODdata env obj).length = 1 + LODfactors.length := by
  simp [LODdata, LODfactors, Nat.add_comm]

theorem assembleGroups_length (env : Env) (ids : List Nat) (trs : List TransformHandle)
    (k i : Nat) (gs : List MeshInfo) : (assembleGroups env ids trs k i gs).length = gs.length := by
  induction gs generalizing i with
  | nil => rfl
  | cons g rest ih => simp [assembleGroups, ih]

theorem assembleGroups_geometry (env : Env) (ids : List Nat) (trs : List TransformHandle)
    (k i : Nat) (gs : List MeshInfo) :
    (assembleGroups env ids trs k i gs).map (fun sm => (sm.vertecies, sm.indicies)) =
      gs.map (fun g => (g.vertecies, g.indicies)) := by
  induction gs generalizing i with
  | nil => rfl
  | cons g rest ih => simp [assembleGroups, ih]

theorem LoadFromFile_LODs_length (env : Env) (filepath : String) (st : LoadState)
    (obj : ObjectInfo) (h : env.Load filepath = .ok obj) :
    (LoadFromFile env filepath st).2.mesh.LODs.length = 6 := by
  rw [LoadFromFile_ok env filepath st obj h]
  simp [assembleLODs_length, LODdata_length, LODfactors]

theorem LoadFromFile_error (env : Env) (filepath : String) (st : LoadState)
    (e : ParseError) (h : env.Load filepath = .error e) :
    LoadFromFile env filepath st = (.error e, st) := by
  simp only [LoadFromFile, h]

/-- C3: for every file that the object loader accepts and every renderer argument (`none` or
`some`), `LoadFromFile` succeeds and leaves the mesh with exactly 6 LOD levels, one for the
original and one per decimation factor, whatever LOD table the mesh held before. -/
theorem LoadFromFile_LODCount (env : Env) (filepath : String) (st : LoadState)
    (obj : ObjectInfo) (h : env.Load filepath = .ok obj) :
    (LoadFromFile env filepath st).1 = .ok () ∧
    (LoadFromFile env filepath st).2.mesh.GetLODCount = 6 ∧
    (LoadFromFile env filepath st).2.mesh.GetLODCount = 1 + LODfactors.length := by
  rw [LoadFromFile_ok env filepath st obj h]
  simp [Mesh.GetLODCount, assembleLODs_length, LODdata_length, LODfactors]

theorem LoadFromFile_LODCount_witness :
    ((LoadFromFile sampleEnv "textured.obj" ⟨eightLevelMesh, some emptyRenderer, freshEngine⟩).1
        = .ok () ∧
      (LoadFromFile sampleEnv "textured.obj"
        ⟨eightLevelMesh, some emptyRenderer, freshEngine⟩).2.mesh.GetLODCount = 6 ∧
      (LoadFromFile sampleEnv "textured.obj"
        ⟨eightLevelMesh, some emptyRenderer, freshEngine⟩).2.mesh.GetLODCount
        = 1 + LODfactors.length) ∧
    eightLevelMesh.GetLODCount = 8 :=
  ⟨LoadFromFile_LODCount sampleEnv "textured.obj"
    ⟨eightLevelMesh, some emptyRenderer, freshEngine⟩ texturedObject rfl, by decide⟩

/-- C4: for every file that the object loader accepts, level 0 of the loaded mesh is the
original geometry: one submesh per group of the parsed description, in group order, each
with exactly the vertex sequence and index sequence of its group. -/
theorem LoadFromFile_LOD0 (env : Env) (filepath : String) (st : LoadState)
    (obj : ObjectInfo) (h : env.Load filepath = .ok obj) :
    ((LoadFromFile env filepath st).2.mesh.LODs[0]?).map List.length
      = some obj.meshes.length ∧
    ((LoadFromFile env filepath st).2.mesh.LODs[0]?).map
        (List.map fun sm => (sm.vertecies, sm.indicies))
      = some (obj.meshes.map fun g => (g.vertecies, g.indicies)) := by
  rw [LoadFromFile_ok env filepath st obj h]
  simp [LODdata, assembleLODs, assembleGroups_length, assembleGroups_geometry]

theorem LoadFromFile_LOD0_witness :
    ((LoadFromFile sampleEnv "model.obj" ⟨emptyMesh, none, freshEngine⟩).2.mesh.LODs[0]?).map
        List.length = some sampleObject.meshes.length ∧
    ((LoadFromFile sampleEnv "model.obj" ⟨emptyMesh, none, freshEngine⟩).2.mesh.LODs[0]?).map
        (List.map fun sm => (sm.vertecies, sm.indicies))
      = some (sampleObject.meshes.map fun g => (g.vertecies, g.indicies)) :=
  LoadFromFile_LOD0 sampleEnv "model.obj" ⟨emptyMesh, none, freshEngine⟩ sampleObject rfl

/-! ## Material conversion -/

/-- C5: for every raw material `mat`, the resource made by `ConvertMaterial` has `Ns = 128`
when `mat.Ns` is zero and `Ns = mat.Ns` otherwise. -/
theorem ConvertMaterial_Ns (env : Env) (mat : MaterialInfo) (s : TexState) :
    (ConvertMaterial env mat s).1.Ns = if mat.Ns = 0 then 128 else mat.Ns := by
  unfold ConvertMaterial
  by_cases h : mat.Ns = 0 <;> simp [h]

theorem ConvertMaterial_Ns_fifty :
    (ConvertMaterial sampleEnv shinyMaterial ⟨[], []⟩).1.Ns = 50 := by decide

theorem ConvertMaterial_Ns_zero :
    (ConvertMaterial sampleEnv texturedMaterial ⟨[], []⟩).1.Ns = 128 := by decide

/-! ### Texture deduplication -/

theorem lookup_cons_ne {k k' : StringId} {v : TextureHandle} {l : List (StringId × TextureHandle)}
    (h : k ≠ k') : List.lookup k ((k', v) :: l) = List.lookup k l := by
  rw [List.lookup_cons]
  have : (k == k') = false := by simpa using h
  rw [this]

theorem MAKE_TEX_snd (env : Env) (tex : String) (slot : Option TextureHandle) (s : TexState) :
    (MAKE_TEX env tex slot s).2 = stepTex env s tex := by
  unfold stepTex MAKE_TEX
  by_cases h : tex = "" <;> simp [h]

theorem stepTex_empty (env : Env) (s : TexState) : stepTex env s "" = s := by
  simp [stepTex, MAKE_TEX]

theorem stepTex_cached (env : Env) (s : TexState) (tex : String)
    (h : s.textures.lookup (env.MakeStringId tex) ≠ none) : stepTex env s tex = s := by
  unfold stepTex MAKE_TEX
  by_cases ht : tex = ""
  · simp [ht]
  · simp only [ne_eq, ht, not_false_eq_true, if_true, if_neg h]

theorem stepTex_create (env : Env) (s : TexState) (tex : String) (ht : tex ≠ "")
    (h : s.textures.lookup (env.MakeStringId tex) = none) :
    stepTex env s tex =
      { textures := (env.MakeStringId tex, s.created.length) :: s.textures
        created := s.created ++ [tex] } := by
  unfold stepTex MAKE_TEX
  simp only [ne_eq, ht, not_false_eq_true, if_true, if_pos h]

theorem MAKE_TEX_fst_empty (env : Env) (slot : Option TextureHandle) (s : TexState) :
    (MAKE_TEX env "" slot s).1 = slot := by
  simp [MAKE_TEX]

theorem MAKE_TEX_fst (env : Env) (tex : String) (slot : Option TextureHandle) (s : TexState)
    (ht : tex ≠ "") :
    (MAKE_TEX env tex slot s).1 = (stepTex env s tex).textures.lookup (env.MakeStringId tex) := by
  unfold stepTex MAKE_TEX
  simp only [ne_eq, ht, not_false_eq_true, if_true]

theorem stepTex_lookup_self (env : Env) (s : TexState) (tex : String) (ht : tex ≠ "") :
    (stepTex env s tex).textures.lookup (env.MakeStringId tex) ≠ none := by
  by_cases h : s.textures.lookup (env.MakeStringId tex) = none
  · rw [stepTex_create env s tex ht h]
    simp
  · rw [stepTex_cached env s tex h]
    exact h

theorem stepTex_lookup_stable (env : Env) (s : TexState) (tex : String) (k : StringId)
    (h : s.textures.lookup k ≠ none) :
    (stepTex env s tex).textures.lookup k = s.textures.lookup k := by
  by_cases ht : tex = ""
  · rw [ht, stepTex_empty]
  · by_cases hc : s.textures.lookup (env.MakeStringId tex) = none
    · rw [stepTex_create env s tex ht hc]
      have hne : k ≠ env.MakeStringId tex := by
        intro e
        rw [e] at h
        exact h hc
      exact lookup_cons_ne hne
    · rw [stepTex_cached env s tex hc]

theorem foldl_stepTex_lookup_stable (env : Env) (ps : List String) (s : TexState) (k : StringId)
    (h : s.textures.lookup k ≠ none) :
    (ps.foldl (stepTex env) s).textures.lookup k = s.textures.lookup k := by
  induction ps generalizing s with
  | nil => rfl
  | cons p rest ih =>
    have e := stepTex_lookup_stable env s p k h
    rw [List.foldl_cons, ih (stepTex env s p) (by rw [e]; exact h), e]

theorem TexInv_step (env : Env) (base seen fresh : List String) (s : TexState) (p : String)
    (h : TexInv env base seen fresh s) :
    ∃ fresh', TexInv env base (seen ++ [p]) fresh' (stepTex env s p) := by
  obtain ⟨hc, hnd, hseen, hkeys, hback, hcov⟩ := h
  by_cases ht : p = ""
  · refine ⟨fresh, ?_⟩
    rw [ht, stepTex_empty]
    refine ⟨hc, hnd, ?_, hkeys, hback, ?_⟩
    · intro q hq
      exact ⟨List.mem_append_left _ (hseen q hq).1, (hseen q hq).2⟩
    · intro q hq hne
      rcases List.mem_append.1 hq with hq | hq
      · exact hcov q hq hne
      · exact absurd (List.mem_singleton.1 hq) hne
  · by_cases hl : s.textures.lookup (env.MakeStringId p) = none
    · refine ⟨fresh ++ [p], ?_⟩
      rw [stepTex_create env s p ht hl]
      have hp : p ∉ fresh := fun hin => hkeys p hin hl
      refine ⟨?_, ?_, ?_, ?_, ?_, ?_⟩
      · simp [hc]
      · exact List.nodup_append.2 ⟨hnd, List.nodup_singleton p, by
          intro a ha hb
          rw [List.mem_singleton.1 hb] at ha
          exact hp ha⟩
      · intro q hq
        rcases List.mem_append.1 hq with hq | hq
        · exact ⟨List.mem_append_left _ (hseen q hq).1, (hseen q hq).2⟩
        · rw [List.mem_singleton.1 hq]
          exact ⟨List.mem_append_right _ (List.mem_singleton.2 rfl), ht⟩
      · intro q hq
        rcases List.mem_append.1 hq with hq | hq
        · by_cases e : env.MakeStringId q = env.MakeStringId p
          · simp [e]
          · show List.lookup _ (_ :: _) ≠ none
            rw [lookup_cons_ne e]
            exact hkeys q hq
        · rw [List.mem_singleton.1 hq]
          simp
      · intro k hk
        by_cases e : k = env.MakeStringId p
        · exact ⟨p, List.mem_append_right _ (List.mem_singleton.2 rfl), e.symm⟩
        · have hk' : List.lookup k s.textures ≠ none := by
            have := lookup_cons_ne (v := s.created.length) (l := s.textures) e
            rw [← this]
            exact hk
          obtain ⟨q, hq, hqk⟩ := hback k hk'
          exact ⟨q, List.mem_append_left _ hq, hqk⟩
      · intro q hq hne
        by_cases e : env.MakeStringId q = env.MakeStringId p
        · simp [e]
        · show List.lookup _ (_ :: _) ≠ none
          rw [lookup_cons_ne e]
          rcases List.mem_append.1 hq with hq | hq
          · exact hcov q hq hne
          · rw [List.mem_singleton.1 hq] at e
            exact absurd rfl e
    · refine ⟨fresh, ?_⟩
      rw [stepTex_cached env s p hl]
      refine ⟨hc, hnd, ?_, hkeys, hback, ?_⟩
      · intro q hq
        exact ⟨List.mem_append_left _ (hseen q hq).1, (hseen q hq).2⟩
      · intro q hq hne
        rcases List.mem_append.1 hq with hq | hq
        · exact hcov q hq hne
        · rw [List.mem_singleton.1 hq]
          exact hl

theorem TexInv_foldl (env : Env) (base : List String) (ps seen fresh : List String)
    (s : TexState) (h : TexInv env base seen fresh s) :
    ∃ fresh', TexInv env base (seen ++ ps) fresh' (ps.foldl (stepTex env) s) := by
  induction ps generalizing seen fresh s with
  | nil => exact ⟨fresh, by simpa using h⟩
  | cons p rest ih =>
    obtain ⟨f1, h1⟩ := TexInv_step env base seen fresh s p h
    obtain ⟨f2, h2⟩ := ih (seen ++ [p]) f1 (stepTex env s p) h1
    exact ⟨f2, by simpa using h2⟩

theorem TexInv_init (env : Env) (base : List String) :
    TexInv env base [] [] { textures := [], created := base } := by
  refine ⟨by simp, List.nodup_nil, ?_, ?_, ?_, ?_⟩ <;> simp

theorem makeTexAll_snd (env : Env) (xs : List (String × Option TextureHandle)) (s : TexState) :
    (makeTexAll env xs s).2 = (xs.map Prod.fst).foldl (stepTex env) s := by
  induction xs generalizing s with
  | nil => rfl
  | cons x rest ih => simp [makeTexAll, ih, MAKE_TEX_snd]

theorem makeTexAll_bound (env : Env) (xs : List (String × Option TextureHandle)) (s : TexState) :
    ∀ b ∈ (xs.map Prod.fst).zip (makeTexAll env xs s).1, b.1 ≠ "" →
      b.2 ≠ none ∧ (makeTexAll env xs s).2.textures.lookup (env.MakeStringId b.1) = b.2 := by
  induction xs generalizing s with
  | nil => intro b hb; simp [makeTexAll] at hb
  | cons x rest ih =>
    intro b hb hne
    simp only [makeTexAll, List.map_cons, List.zip_cons_cons, List.mem_cons] at hb
    rcases hb with hb | hb
    · subst hb
      have h1 : (MAKE_TEX env x.1 x.2 s).1
          = (stepTex env s x.1).textures.lookup (env.MakeStringId x.1) :=
        MAKE_TEX_fst env x.1 x.2 s hne
      have h2 := stepTex_lookup_self env s x.1 hne
      refine ⟨by simp only [h1]; exact h2, ?_⟩
      simp only [makeTexAll, makeTexAll_snd, MAKE_TEX_snd, h1]
      exact foldl_stepTex_lookup_stable env _ _ _ h2
    · simpa only [makeTexAll] using ih (MAKE_TEX env x.1 x.2 s).2 b hb hne

theorem ConvertMaterial_makeTexAll (env : Env) (mat : MaterialInfo) (s : TexState) :
    texSlots (ConvertMaterial env mat s).1
      = (makeTexAll env ((texPaths mat).zip (texSlots env.CreateMaterial)) s).1 ∧
    (ConvertMaterial env mat s).2
      = (makeTexAll env ((texPaths mat).zip (texSlots env.CreateMaterial)) s).2 := by
  unfold ConvertMaterial
  by_cases h : mat.Ns = 0 <;> simp [h, texSlots, texPaths, makeTexAll]

theorem texPaths_zip_fst (mat : MaterialInfo) (m : Material) :
    ((texPaths mat).zip (texSlots m)).map Prod.fst = texPaths mat := by
  simp [texPaths, texSlots]

theorem ConvertMaterial_snd (env : Env) (mat : MaterialInfo) (s : TexState) :
    (ConvertMaterial env mat s).2 = (texPaths mat).foldl (stepTex env) s := by
  rw [(ConvertMaterial_makeTexAll env mat s).2, makeTexAll_snd, texPaths_zip_fst]

theorem ConvertMaterial_bound (env : Env) (mat : MaterialInfo) (s : TexState) :
    ∀ b ∈ (texPaths mat).zip (texSlots (ConvertMaterial env mat s).1), b.1 ≠ "" →
      b.2 ≠ none ∧ (ConvertMaterial env mat s).2.textures.lookup (env.MakeStringId b.1) = b.2 := by
  have h := makeTexAll_bound env ((texPaths mat).zip (texSlots env.CreateMaterial)) s
  rw [texPaths_zip_fst, ← (ConvertMaterial_makeTexAll env mat s).1,
    ← (ConvertMaterial_makeTexAll env mat s).2] at h
  exact h

theorem convertAll_snd (env : Env) (mats : List MaterialInfo) (s : TexState) :
    (convertAll env mats s).2 = (mats.flatMap texPaths).foldl (stepTex env) s := by
  induction mats generalizing s with
  | nil => rfl
  | cons mat rest ih =>
    simp [convertAll, ih, ConvertMaterial_snd, List.foldl_append]

theorem convertAll_length (env : Env) (mats : List MaterialInfo) (s : TexState) :
    (convertAll env mats s).1.length = mats.length := by
  induction mats generalizing s with
  | nil => rfl
  | cons mat rest ih => simp [convertAll, ih]

theorem convertAll_bound (env : Env) (mats : List MaterialInfo) (s : TexState) :
    ∀ b ∈ slotBindings mats ((convertAll env mats s).1.map some), b.1 ≠ "" →
      b.2 ≠ none ∧ (convertAll env mats s).2.textures.lookup (env.MakeStringId b.1) = b.2 := by
  induction mats generalizing s with
  | nil => intro b hb; simp [slotBindings, convertAll] at hb
  | cons mat rest ih =>
    intro b hb hne
    simp only [slotBindings, convertAll, List.map_cons, List.zip_cons_cons, List.flatMap_cons,
      List.mem_append] at hb
    rcases hb with hb | hb
    · obtain ⟨h1, h2⟩ := ConvertMaterial_bound env mat s b hb hne
      refine ⟨h1, ?_⟩
      simp only [convertAll, convertAll_snd]
      rw [foldl_stepTex_lookup_stable env _ _ _ (by rw [h2]; exact h1), h2]
    · simpa only [convertAll] using ih (ConvertMaterial env mat s).2 b hb hne

theorem resize_length {α : Type} (l : List α) (n : Nat) (v : α) : (resize l n v).length = n := by
  simp only [resize, List.length_append, List.length_take, List.length_replicate]
  omega

theorem fillMaterials_eq (env : Env) (mats : List MaterialInfo) (i : Nat)
    (tbl : List (Option Material)) (s : TexState) (h : i + mats.length ≤ tbl.length) :
    fillMaterials env mats i tbl s =
      (tbl.take i ++ (convertAll env mats s).1.map some ++ tbl.drop (i + mats.length),
       (convertAll env mats s).2) := by
  induction mats generalizing i tbl s with
  | nil => simp [fillMaterials, convertAll]
  | cons mat rest ih =>
    simp only [List.length_cons] at h
    have hi : i < tbl.length := by omega
    simp only [fillMaterials, convertAll]
    rw [ih (i + 1) _ _ (by simp only [List.length_set]; omega)]
    congr 1
    rw [List.set_eq_take_cons_drop _ hi]
    have e1 : (List.take i tbl ++ some (ConvertMaterial env mat s).1 :: List.drop (i + 1) tbl).take
        (i + 1) = List.take i tbl ++ [some (ConvertMaterial env mat s).1] := by
      rw [List.take_append_eq_append_take]
      simp [List.length_take, Nat.min_eq_left (Nat.le_of_lt hi), List.take_take]
    have e2 : (List.take i tbl ++ some (ConvertMaterial env mat s).1 :: List.drop (i + 1) tbl).drop
        (i + 1 + rest.length) = List.drop (i + (rest.length + 1)) tbl := by
      rw [List.drop_append_eq_append_drop]
      have hz : List.drop (i + 1 + rest.length) (List.take i tbl) = [] :=
        List.drop_eq_nil_of_le (by simp only [List.length_take]; omega)
      have hd : i + 1 + rest.length - (List.take i tbl).length = rest.length + 1 := by
        simp only [List.length_take]; omega
      rw [hz, hd, List.nil_append, List.drop_succ_cons, List.drop_drop]
      congr 1
      omega
    rw [e1, e2]
    simp

theorem loadMaterials_some (env : Env) (obj : ObjectInfo) (renderer : MeshRenderer)
    (created : List String) :
    loadMaterials env obj (some renderer) created =
      (pushMaterialIds obj.meshes [],
       some { Materials := (convertAll env obj.materials ⟨[], created⟩).1.map some },
       (convertAll env obj.materials ⟨[], created⟩).2.created) := by
  simp only [loadMaterials]
  rw [fillMaterials_eq env obj.materials 0 _ _ (by rw [resize_length]; omega)]
  have hl : (resize renderer.Materials obj.materials.length none).length = obj.materials.length :=
    resize_length _ _ _
  have hd : List.drop (0 + obj.materials.length)
      (resize renderer.Materials obj.materials.length none) = [] :=
    List.drop_eq_nil_of_le (by omega)
  have hr : resize (List.replicate obj.meshes.length 0) 0 0 = [] := by simp [resize]
  rw [hd, hr, List.take_zero, List.nil_append, List.append_nil]

theorem createTransforms_Textures (gs : List MeshInfo) (acc : List TransformHandle)
    (e : Engine) : (createTransforms gs acc e).2.Textures = e.Textures := by
  induction gs generalizing acc e with
  | nil => rfl
  | cons g rest ih => simp [createTransforms, ih]

theorem convertAll_TexInv (env : Env) (mats : List MaterialInfo) (base : List String) :
    ∃ fresh, TexInv env base (mats.flatMap texPaths) fresh
      (convertAll env mats { textures := [], created := base }).2 := by
  rw [convertAll_snd]
  simpa using TexInv_foldl env base (mats.flatMap texPaths) [] [] _ (TexInv_init env base)

/-- C6: within one load with a renderer (one texture map, empty at the start, shared by all
`ConvertMaterial` calls), provided `MakeStringId` gives different keys to the different
texture paths of the model: the record of created textures is only extended, no file is
created twice, the number of creation calls is the number of distinct non-empty texture
paths that the materials refer to, the material table gets one entry per raw material, and
any two texture slots made from the same non-empty path are bound to one and the same
handle. -/
theorem LoadFromFile_texture_dedup (env : Env) (filepath : String) (st : LoadState)
    (obj : ObjectInfo) (renderer : MeshRenderer)
    (h : env.Load filepath = .ok obj) (hr : st.meshRenderer = some renderer)
    (hkey : ∀ p ∈ referencedTextures obj.materials, ∀ q ∈ referencedTextures obj.materials,
      env.MakeStringId p = env.MakeStringId q → p = q) :
    (LoadFromFile env filepath st).2.engine.Textures
      = st.engine.Textures ++ texturesCreated st.engine (LoadFromFile env filepath st).2.engine ∧
    (texturesCreated st.engine (LoadFromFile env filepath st).2.engine).Nodup ∧
    (texturesCreated st.engine (LoadFromFile env filepath st).2.engine).length
      = (referencedTextures obj.materials).dedup.length ∧
    (materialsOf (LoadFromFile env filepath st).2.meshRenderer).length = obj.materials.length ∧
    ∀ b1 ∈ slotBindings obj.materials (materialsOf (LoadFromFile env filepath st).2.meshRenderer),
      ∀ b2 ∈ slotBindings obj.materials (materialsOf (LoadFromFile env filepath st).2.meshRenderer),
        b1.1 ≠ "" → b1.1 = b2.1 → b1.2 ≠ none ∧ b1.2 = b2.2 := by
  rw [LoadFromFile_ok env filepath st obj h, hr, loadMaterials_some, createTransforms_Textures]
  simp only [texturesCreated, materialsOf]
  obtain ⟨fresh, hc, hnd, hseen, _, hback, hcov⟩ :=
    convertAll_TexInv env obj.materials st.engine.Textures
  have hmem : ∀ p, p ∈ fresh ↔ p ∈ (referencedTextures obj.materials).dedup := by
    intro p
    rw [List.mem_dedup]
    constructor
    · intro hp
      exact List.mem_filter.2 ⟨(hseen p hp).1, by simpa using (hseen p hp).2⟩
    · intro hp
      have hp' := List.mem_filter.1 hp
      have hne : p ≠ "" := by simpa using hp'.2
      obtain ⟨q, hq, hqk⟩ := hback _ (hcov p hp'.1 hne)
      have hq' : q ∈ referencedTextures obj.materials :=
        List.mem_filter.2 ⟨(hseen q hq).1, by simpa using (hseen q hq).2⟩
      rw [← hkey q hq' p hp hqk]
      exact hq
  have hlen : fresh.length = (referencedTextures obj.materials).dedup.length :=
    ((List.perm_ext_iff_of_nodup hnd (List.nodup_dedup _)).2 hmem).length_eq
  rw [hc]
  simp only [List.drop_left]
  refine ⟨trivial, hnd, hlen, by simp [convertAll_length], ?_⟩
  intro b1 hb1 b2 hb2 hne he
  obtain ⟨n1, l1⟩ := convertAll_bound env obj.materials _ b1 hb1 hne
  obtain ⟨_, l2⟩ := convertAll_bound env obj.materials _ b2 hb2 (he ▸ hne)
  exact ⟨n1, by rw [← l1, ← l2, he]⟩

theorem LoadFromFile_texture_dedup_witness :
    ((LoadFromFile sampleEnv "textured.obj" ⟨emptyMesh, some emptyRenderer, freshEngine⟩).2.engine.Textures
      = freshEngine.Textures ++ texturesCreated freshEngine
          (LoadFromFile sampleEnv "textured.obj" ⟨emptyMesh, some emptyRenderer, freshEngine⟩).2.engine ∧
    (texturesCreated freshEngine
      (LoadFromFile sampleEnv "textured.obj" ⟨emptyMesh, some emptyRenderer, freshEngine⟩).2.engine).Nodup ∧
    (texturesCreated freshEngine
      (LoadFromFile sampleEnv "textured.obj" ⟨emptyMesh, some emptyRenderer, freshEngine⟩).2.engine).length
      = (referencedTextures texturedObject.materials).dedup.length ∧
    (materialsOf
      (LoadFromFile sampleEnv "textured.obj" ⟨emptyMesh, some emptyRenderer, freshEngine⟩).2.meshRenderer).length
      = texturedObject.materials.length ∧
    ∀ b1 ∈ slotBindings texturedObject.materials (materialsOf
        (LoadFromFile sampleEnv "textured.obj" ⟨emptyMesh, some emptyRenderer, freshEngine⟩).2.meshRenderer),
      ∀ b2 ∈ slotBindings texturedObject.materials (materialsOf
          (LoadFromFile sampleEnv "textured.obj" ⟨emptyMesh, some emptyRenderer, freshEngine⟩).2.meshRenderer),
        b1.1 ≠ "" → b1.1 = b2.1 → b1.2 ≠ none ∧ b1.2 = b2.2) ∧
    referencedTextures texturedObject.materials = ["tex.png", "tex.png", "n.png"] ∧
    texturesCreated freshEngine
      (LoadFromFile sampleEnv "textured.obj" ⟨emptyMesh, some emptyRenderer, freshEngine⟩).2.engine
      = ["tex.png", "n.png"] :=
  ⟨LoadFromFile_texture_dedup sampleEnv "textured.obj" ⟨emptyMesh, some emptyRenderer, freshEngine⟩
    texturedObject emptyRenderer rfl rfl (by decide), by decide, by decide⟩

/-! ## Failure of the object loader -/

/-- C9: when the object loader fails on the file, `LoadFromFile` fails with the same error
and the mesh (LOD table, `currentLOD`, bounding box, instanced buffers), the renderer's
material table and the engine factories are exactly as before the call. -/
theorem LoadFromFile_ParseError (env : Env) (filepath : String) (st : LoadState)
    (e : ParseError) (h : env.Load filepath = .error e) :
    LoadFromFile env filepath st = (.error e, st) := by
  simp only [LoadFromFile, h]

theorem LoadFromFile_ParseError_witness :
    LoadFromFile sampleEnv "missing.obj" ⟨eightLevelMesh, some emptyRenderer, freshEngine⟩
      = (.error "cannot read file", ⟨eightLevelMesh, some emptyRenderer, freshEngine⟩) :=
  LoadFromFile_ParseError sampleEnv "missing.obj" ⟨eightLevelMesh, some emptyRenderer, freshEngine⟩
    "cannot read file" rfl

/-! ## Loading: material ids of mixed groups -/

/-- C7 (the code at the failing input): a model with an untextured group followed by a
textured group, loaded with a renderer. Only the textured group pushes a material id, so
`materialIds` is `[0]` although there are two groups; in each of the 6 levels the submesh of
the untextured group carries id 0 (the textured group's material, not a "no material"
value) and the submesh of the textured group carries whatever is read past the end of
`materialIds`. With the groups in the other order the untextured group's submesh is the
one that carries the value read past the end. -/
theorem LoadFromFile_mixed_groups (oob : Nat → Nat → Nat) :
    (loadMaterials (sampleEnvReading oob) sampleObject (some emptyRenderer) []).1 = [0] ∧
    (LoadFromFile (sampleEnvReading oob) "model.obj"
        ⟨emptyMesh, some emptyRenderer, freshEngine⟩).2.mesh.LODs.map (List.map SubMesh.materialId)
      = [[0, oob 0 1], [0, oob 1 1], [0, oob 2 1], [0, oob 3 1], [0, oob 4 1], [0, oob 5 1]] ∧
    (LoadFromFile (sampleEnvReading oob) "reversed.obj"
        ⟨emptyMesh, some emptyRenderer, freshEngine⟩).2.mesh.LODs.map (List.map SubMesh.materialId)
      = [[0, oob 0 1], [0, oob 1 1], [0, oob 2 1], [0, oob 3 1], [0, oob 4 1], [0, oob 5 1]] :=
  ⟨rfl, rfl, rfl⟩

/-! ## The invariant on `currentLOD` -/

theorem LoadFromFile_currentLOD (env : Env) (filepath : String) (st : LoadState) :
    (LoadFromFile env filepath st).2.mesh.currentLOD = st.mesh.currentLOD := by
  unfold LoadFromFile
  split <;> rfl

/-- C8 (the code at the failing inputs): `PopLastLOD` and `LoadFromFile` shrink the LOD table
without touching `currentLOD`. On a mesh that satisfies `0 <= currentLOD < count`, popping
the last of three levels while it is selected, or reloading while level 7 of 8 is selected
(the reload leaves 6 levels), leaves `currentLOD >= count`: the predicate is broken and
`GetSubmeshes` indexes the LOD table out of range. -/
theorem LODInRange_counterexample :
    (lastOfThreeMesh.LODInRange ∧ ¬ lastOfThreeMesh.PopLastLOD.LODInRange ∧
      lastOfThreeMesh.PopLastLOD.GetSubmeshes = none) ∧
    (eightLevelMesh.LODInRange ∧
      (LoadFromFile sampleEnv "model.obj" ⟨eightLevelMesh, none, freshEngine⟩).1 = .ok () ∧
      ¬ (LoadFromFile sampleEnv "model.obj" ⟨eightLevelMesh, none, freshEngine⟩).2.mesh.LODInRange ∧
      (LoadFromFile sampleEnv "model.obj"
        ⟨eightLevelMesh, none, freshEngine⟩).2.mesh.GetSubmeshes = none) :=
  ⟨⟨by decide, by decide, by decide⟩, by decide, rfl, by decide, by decide⟩

/-- Where the range predicate survives. If `0 <= currentLOD < count` holds for a mesh, then
`GetSubmeshes` indexes the LOD table in range, and the predicate still holds after `SetLOD`
(for a table of at most `2 ^ 31 - 1` levels), `PushEmptyLOD`, `AddInstancedBuffer`,
`SetAABB` and a failed `LoadFromFile`. `PopLastLOD` keeps it only when the selected level
was not the last one, and a successful `LoadFromFile` only when `currentLOD < 6`: neither
adjusts `currentLOD` to the shorter table. -/
theorem LODInRange_preserved (m : Mesh) (h : m.LODInRange) :
    m.GetSubmeshes.isSome ∧
    (∀ n, m.GetLODCount ≤ 2147483647 → (m.SetLOD n).LODInRange) ∧
    m.PushEmptyLOD.LODInRange ∧
    (∀ vbo vbl, (m.AddInstancedBuffer vbo vbl).LODInRange) ∧
    (∀ box, (m.SetAABB box).LODInRange) ∧
    (m.PopLastLOD.LODInRange ↔ m.currentLOD + 1 < m.GetLODCount) ∧
    (∀ env filepath renderer engine obj, env.Load filepath = .ok obj →
      ((LoadFromFile env filepath ⟨m, renderer, engine⟩).2.mesh.LODInRange ↔ m.currentLOD < 6)) ∧
    (∀ env filepath renderer engine e, env.Load filepath = .error e →
      (LoadFromFile env filepath ⟨m, renderer, engine⟩).2.mesh.LODInRange) := by
  unfold Mesh.LODInRange at h
  refine ⟨?_, ?_, ?_, ?_, ?_, ?_, ?_, ?_⟩
  · simp [Mesh.GetSubmeshes, h]
  · intro n hn
    unfold Mesh.GetLODCount at hn
    unfold Mesh.LODInRange
    rw [SetLOD_currentLOD m n (by omega) hn, SetLOD_LODs]
    omega
  · simp only [Mesh.LODInRange, Mesh.PushEmptyLOD, List.length_append, List.length_singleton]
    omega
  · intro vbo vbl
    simpa [Mesh.LODInRange, Mesh.AddInstancedBuffer] using h
  · intro box
    exact h
  · have hne : m.LODs.isEmpty = false := by
      cases hl : m.LODs with
      | nil => rw [hl] at h; simp at h
      | cons a l => rfl
    simp only [Mesh.LODInRange, Mesh.PopLastLOD, Mesh.GetLODCount, hne, Bool.not_false, if_true,
      List.length_dropLast]
    omega
  · intro env filepath renderer engine obj hobj
    have hc := LoadFromFile_LODs_length env filepath ⟨m, renderer, engine⟩ obj hobj
    unfold Mesh.LODInRange
    rw [hc, LoadFromFile_currentLOD]
  · intro env filepath renderer engine e he
    rw [LoadFromFile_error env filepath ⟨m, renderer, engine⟩ e he]
    exact h

theorem LODInRange_preserved_witness :
    threeLevelMesh.LODInRange ∧
    (threeLevelMesh.GetSubmeshes.isSome ∧
    (∀ n, threeLevelMesh.GetLODCount ≤ 2147483647 → (threeLevelMesh.SetLOD n).LODInRange) ∧
    threeLevelMesh.PushEmptyLOD.LODInRange ∧
    (∀ vbo vbl, (threeLevelMesh.AddInstancedBuffer vbo vbl).LODInRange) ∧
    (∀ box, (threeLevelMesh.SetAABB box).LODInRange) ∧
    (threeLevelMesh.PopLastLOD.LODInRange ↔
      threeLevelMesh.currentLOD + 1 < threeLevelMesh.GetLODCount) ∧
    (∀ env filepath renderer engine obj, env.Load filepath = .ok obj →
      ((LoadFromFile env filepath ⟨threeLevelMesh, renderer, engine⟩).2.mesh.LODInRange ↔
        threeLevelMesh.currentLOD < 6)) ∧
    (∀ env filepath renderer engine e, env.Load filepath = .error e →
      (LoadFromFile env filepath ⟨threeLevelMesh, renderer, engine⟩).2.mesh.LODInRange)) :=
  ⟨by decide, LODInRange_preserved threeLevelMesh (by decide)⟩

/-! ## Generated descriptions with a different number of groups -/

theorem createTransforms_length (gs : List MeshInfo) (acc : List TransformHandle) (e : Engine) :
    (createTransforms gs acc e).1.length = acc.length + gs.length := by
  induction gs generalizing acc e with
  | nil => rfl
  | cons g rest ih =>
    simp only [createTransforms, ih, List.length_append, List.length_cons, List.length_nil]
    omega

theorem assembleLODs_shape (env : Env) (ids : List Nat) (trs : List TransformHandle)
    (k : Nat) (l : List ObjectInfo) :
    (assembleLODs env ids trs k l).map List.length = l.map fun lod => lod.meshes.length := by
  induction l generalizing k with
  | nil => rfl
  | cons lod rest ih => simp [assembleLODs, ih, assembleGroups_length]

theorem assembleGroups_mem (env : Env) (ids : List Nat) (trs : List TransformHandle)
    (k i : Nat) (gs : List MeshInfo) (h1 : i + gs.length ≤ ids.length)
    (h2 : i + gs.length ≤ trs.length) :
    ∀ sm ∈ assembleGroups env ids trs k i gs, sm.materialId ∈ ids ∧ sm.transform ∈ trs := by
  induction gs generalizing i with
  | nil => intro sm hsm; simp [assembleGroups] at hsm
  | cons g rest ih =>
    simp only [List.length_cons] at h1 h2
    intro sm hsm
    simp only [assembleGroups, List.mem_cons] at hsm
    rcases hsm with hsm | hsm
    · have hi1 : i < ids.length := by omega
      have hi2 : i < trs.length := by omega
      subst hsm
      simp only [List.getD_eq_getElem?_getD, List.getElem?_eq_getElem hi1,
        List.getElem?_eq_getElem hi2, Option.getD_some]
      exact ⟨List.getElem_mem _, List.getElem_mem _⟩
    · exact ih (i + 1) (by omega) (by omega) sm hsm

theorem assembleLODs_mem (env : Env) (ids : List Nat) (trs : List TransformHandle)
    (k : Nat) (l : List ObjectInfo)
    (h : ∀ lod ∈ l, lod.meshes.length ≤ ids.length ∧ lod.meshes.length ≤ trs.length) :
    ∀ level ∈ assembleLODs env ids trs k l, ∀ sm ∈ level,
      sm.materialId ∈ ids ∧ sm.transform ∈ trs := by
  induction l generalizing k with
  | nil => intro level hl; simp [assembleLODs] at hl
  | cons lod rest ih =>
    intro level hl
    simp only [assembleLODs, List.mem_cons] at hl
    rcases hl with hl | hl
    · subst hl
      have hb := h lod (List.mem_cons_self _ _)
      exact assembleGroups_mem env ids trs k 0 lod.meshes (by omega) (by omega)
    · exact ih (k + 1) (fun x hx => h x (List.mem_cons_of_mem _ hx)) level hl

/-- C10 (as stated) fails: with a LOD generator that returns descriptions of one group for
an original of two groups, `LoadFromFile` reports no error, overwrites the bounding box and
stores a LOD table built from the inconsistent descriptions (level 0 has two submeshes, the
other levels one). -/
theorem LoadFromFile_group_mismatch_counterexample :
    (droppingEnv.CreateObject sampleObject (1 / 1000)).meshes.length ≠ sampleObject.meshes.length ∧
    (LoadFromFile droppingEnv "model.obj" ⟨threeLevelMesh, none, freshEngine⟩).1 = .ok () ∧
    (LoadFromFile droppingEnv "model.obj" ⟨threeLevelMesh, none, freshEngine⟩).2.mesh
      ≠ threeLevelMesh ∧
    (LoadFromFile droppingEnv "model.obj" ⟨threeLevelMesh, none, freshEngine⟩).2.mesh.boundingBox
      = unitBox ∧
    (LoadFromFile droppingEnv "model.obj" ⟨threeLevelMesh, none, freshEngine⟩).2.mesh.LODs.map
      List.length = [2, 1, 1, 1, 1, 1] :=
  ⟨by decide, rfl, by decide, by decide, by decide⟩

/-- C10 (amended): `LoadFromFile` makes no check of group counts. Whenever the object loader
accepts the file and no description has more groups than there are material ids and
transform handles (so that the assembly reads `materialIds[i]` and `submeshTransforms[i]`
within bounds), `LoadFromFile` completes without error, replaces the bounding box by that
of the parsed object and stores a table whose level `k` has exactly as many submeshes as
description `k` has groups, also when a generated description has fewer groups than
the original; every submesh carries one of the material ids and one of the transform
handles of this load. -/
theorem LoadFromFile_no_group_check (env : Env) (filepath : String) (st : LoadState)
    (obj : ObjectInfo) (h : env.Load filepath = .ok obj)
    (hb : ∀ lod ∈ LODdata env obj,
      lod.meshes.length ≤ (loadMaterials env obj st.meshRenderer st.engine.Textures).1.length ∧
      lod.meshes.length ≤ (createTransforms obj.meshes [] st.engine).1.length) :
    (LoadFromFile env filepath st).1 = .ok () ∧
    (LoadFromFile env filepath st).2.mesh.boundingBox = obj.boundingBox ∧
    (LoadFromFile env filepath st).2.mesh.LODs.map List.length
      = (LODdata env obj).map (fun lod => lod.meshes.length) ∧
    ∀ level ∈ (LoadFromFile env filepath st).2.mesh.LODs, ∀ sm ∈ level,
      sm.materialId ∈ (loadMaterials env obj st.meshRenderer st.engine.Textures).1 ∧
      sm.transform ∈ (createTransforms obj.meshes [] st.engine).1 := by
  rw [LoadFromFile_ok env filepath st obj h, createTransforms_Textures]
  exact ⟨rfl, rfl, assembleLODs_shape _ _ _ _ _, assembleLODs_mem _ _ _ _ _ hb⟩

theorem LoadFromFile_no_group_check_witness :
    ((LoadFromFile droppingEnv "model.obj" ⟨threeLevelMesh, none, freshEngine⟩).1 = .ok () ∧
      (LoadFromFile droppingEnv "model.obj" ⟨threeLevelMesh, none, freshEngine⟩).2.mesh.boundingBox
        = sampleObject.boundingBox ∧
      (LoadFromFile droppingEnv "model.obj" ⟨threeLevelMesh, none, freshEngine⟩).2.mesh.LODs.map
        List.length = (LODdata droppingEnv sampleObject).map (fun lod => lod.meshes.length) ∧
      ∀ level ∈ (LoadFromFile droppingEnv "model.obj"
          ⟨threeLevelMesh, none, freshEngine⟩).2.mesh.LODs, ∀ sm ∈ level,
        sm.materialId ∈ (loadMaterials droppingEnv sampleObject none freshEngine.Textures).1 ∧
        sm.transform ∈ (createTransforms sampleObject.meshes [] freshEngine).1) ∧
    (LODdata droppingEnv sampleObject).map (fun lod => lod.meshes.length) = [2, 1, 1, 1, 1, 1] :=
  ⟨LoadFromFile_no_group_check droppingEnv "model.obj" ⟨threeLevelMesh, none, freshEngine⟩
    sampleObject rfl (by decide), by decide⟩

/-! ## Scalar fields of a converted material -/

/-- C11 (the code at the failing input): `ConvertMaterial` copies `Ni`, `d`, `Tf`, `Ka`, `Kd`,
`Ks`, `Ke` and `illum` from the raw material, and `Ns` when it is not zero, but it has no
assignment for `Tr`: the result keeps the `Tr` of the freshly created resource. For the
sample material with `Tr = 1/2` the converted resource has `Tr = 0`. -/
theorem ConvertMaterial_scalars (env : Env) (mat : MaterialInfo) (s : TexState) :
    ((ConvertMaterial env mat s).1.Ni = mat.Ni ∧ (ConvertMaterial env mat s).1.d = mat.d ∧
      (ConvertMaterial env mat s).1.Tf = mat.Tf ∧ (ConvertMaterial env mat s).1.Ka = mat.Ka ∧
      (ConvertMaterial env mat s).1.Kd = mat.Kd ∧ (ConvertMaterial env mat s).1.Ks = mat.Ks ∧
      (ConvertMaterial env mat s).1.Ke = mat.Ke ∧
      (ConvertMaterial env mat s).1.illum = mat.illum ∧
      (ConvertMaterial env mat s).1.Ns = (if mat.Ns = 0 then 128 else mat.Ns)) ∧
    (ConvertMaterial env mat s).1.Tr = env.CreateMaterial.Tr ∧
    (texturedMaterial.Tr = 1 / 2 ∧
      (ConvertMaterial sampleEnv texturedMaterial ⟨[], []⟩).1.Tr = 0) := by
  refine ⟨?_, ?_, rfl, by decide⟩
  · unfold ConvertMaterial
    by_cases h : mat.Ns = 0 <;> simp [h]
  · unfold ConvertMaterial
    by_cases h : mat.Ns = 0 <;> simp [h]

/-! ## Instanced buffers -/

/-- C12: for every mesh, `AddInstancedBuffer vbo vbl` appends the buffer and the layout to the
mesh's lists (`GetBufferCount` grows by exactly 1) and attaches the new pair exactly once,
at the end, to every submesh of every LOD level; the number of levels, the number of
submeshes per level, everything else of each submesh, `currentLOD` and the bounding box are
unchanged. -/
theorem AddInstancedBuffer_spec (m : Mesh) (vbo : VertexBuffer) (vbl : VertexBufferLayout) :
    (m.AddInstancedBuffer vbo vbl).VBOs = m.VBOs ++ [vbo] ∧
    (m.AddInstancedBuffer vbo vbl).VBLs = m.VBLs ++ [vbl] ∧
    (m.AddInstancedBuffer vbo vbl).GetBufferCount = m.GetBufferCount + 1 ∧
    (m.AddInstancedBuffer vbo vbl).LODs.map (List.map SubMesh.instanced)
      = m.LODs.map (List.map fun sm => sm.instanced ++ [(vbo, vbl)]) ∧
    (m.AddInstancedBuffer vbo vbl).LODs.map (List.map fun sm => sm.instanced.count (vbo, vbl))
      = m.LODs.map (List.map fun sm => sm.instanced.count (vbo, vbl) + 1) ∧
    (m.AddInstancedBuffer vbo vbl).LODs.map (List.map SubMesh.core)
      = m.LODs.map (List.map SubMesh.core) ∧
    (m.AddInstancedBuffer vbo vbl).LODs.map List.length = m.LODs.map List.length ∧
    (m.AddInstancedBuffer vbo vbl).GetLODCount = m.GetLODCount ∧
    (m.AddInstancedBuffer vbo vbl).currentLOD = m.currentLOD ∧
    (m.AddInstancedBuffer vbo vbl).boundingBox = m.boundingBox := by
  simp [Mesh.AddInstancedBuffer, Mesh.GetBufferCount, Mesh.GetLODCount, SubMesh.core,
    Function.comp_def]

theorem AddInstancedBuffer_example :
    ((instancedMesh.AddInstancedBuffer 8 10).LODs.map (List.map SubMesh.instanced)
      = [[[(7, 9), (8, 10)]], [[(7, 9), (8, 10)], [(7, 9), (8, 10)]]]) ∧
    (instancedMesh.AddInstancedBuffer 8 10).GetBufferCount = 2 := by decide

/-! ## Editing the LOD table -/

/-- C13: `PopLastLOD` on a mesh with an empty LOD table changes nothing; on a table
`init ++ [last]` it removes exactly the last level: the levels before it stay as they are,
the count goes down by 1, and no other part of the mesh changes. It is a total function:
no error occurs. -/
theorem PopLastLOD_spec (init : List LOD) (last : LOD) (cur : Nat) (box : AABB)
    (vbos : List VertexBuffer) (vbls : List VertexBufferLayout) :
    Mesh.PopLastLOD ⟨[], cur, box, vbos, vbls⟩ = ⟨[], cur, box, vbos, vbls⟩ ∧
    Mesh.PopLastLOD ⟨init ++ [last], cur, box, vbos, vbls⟩ = ⟨init, cur, box, vbos, vbls⟩ ∧
    (Mesh.PopLastLOD ⟨init ++ [last], cur, box, vbos, vbls⟩).GetLODCount + 1
      = (Mesh.mk (init ++ [last]) cur box vbos vbls).GetLODCount := by
  refine ⟨rfl, ?_, ?_⟩
  · simp [Mesh.PopLastLOD]
  · simp [Mesh.PopLastLOD, Mesh.GetLODCount]

theorem PopLastLOD_example :
    emptyMesh.PopLastLOD = emptyMesh ∧
    instancedMesh.PopLastLOD = ⟨[[sampleSubMesh]], 0, unitBox, [7], [9]⟩ := by decide

/-! ## What loading does to `currentLOD` -/

/-- C17 (the code at the failing input): for the model with an untextured and a textured
group, loaded with a renderer, there are 2 groups and 2 transform handles but only 1
material id when the assembly starts, so `materialIds[1]` is out of bounds; with a null
renderer there are 2 material ids. -/
theorem LoadFromFile_lookup_counts :
    sampleObject.meshes.length = 2 ∧
    (createTransforms sampleObject.meshes [] freshEngine).1.length = 2 ∧
    (loadMaterials sampleEnv sampleObject (some emptyRenderer) freshEngine.Textures).1.length = 1 ∧
    (loadMaterials sampleEnv sampleObject none freshEngine.Textures).1.length = 2 := by
  decide

/-! ## The bounding box -/

/-- C18: after a successful `LoadFromFile`, `GetAABB` is the bounding box of the parsed
object description; `SetLOD`, `PushEmptyLOD`, `PopLastLOD` and `AddInstancedBuffer` leave
`GetAABB` unchanged; after `SetAABB box`, `GetAABB` returns `box`. -/
theorem GetAABB_spec (env : Env) (filepath : String) (st : LoadState) (obj : ObjectInfo)
    (h : env.Load filepath = .ok obj) (m : Mesh) (n : Nat) (vbo : VertexBuffer)
    (vbl : VertexBufferLayout) (box : AABB) :
    (LoadFromFile env filepath st).2.mesh.GetAABB = obj.boundingBox ∧
    (m.SetLOD n).GetAABB = m.GetAABB ∧
    m.PushEmptyLOD.GetAABB = m.GetAABB ∧
    m.PopLastLOD.GetAABB = m.GetAABB ∧
    (m.AddInstancedBuffer vbo vbl).GetAABB = m.GetAABB ∧
    (m.SetAABB box).GetAABB = box := by
  refine ⟨?_, rfl, rfl, ?_, rfl, rfl⟩
  · rw [LoadFromFile_ok env filepath st obj h]
    rfl
  · unfold Mesh.PopLastLOD
    split <;> rfl

theorem GetAABB_spec_witness :
    ((LoadFromFile sampleEnv "textured.obj" ⟨instancedMesh, none, freshEngine⟩).2.mesh.GetAABB
        = texturedObject.boundingBox ∧
      (instancedMesh.SetLOD 1).GetAABB = instancedMesh.GetAABB ∧
      instancedMesh.PushEmptyLOD.GetAABB = instancedMesh.GetAABB ∧
      instancedMesh.PopLastLOD.GetAABB = instancedMesh.GetAABB ∧
      (instancedMesh.AddInstancedBuffer 8 10).GetAABB = instancedMesh.GetAABB ∧
      (instancedMesh.SetAABB zeroBox).GetAABB = zeroBox) ∧
    texturedObject.boundingBox = unitBox :=
  ⟨GetAABB_spec sampleEnv "textured.obj" ⟨instancedMesh, none, freshEngine⟩ texturedObject rfl
    instancedMesh 1 8 10 zeroBox, by decide⟩

/-! ## Order and index counts of the levels -/

theorem LODdata_eq (env : Env) (obj : ObjectInfo) :
    LODdata env obj =
      [obj, env.CreateObject obj (1 / 1000), env.CreateObject obj (1 / 100),
        env.CreateObject obj (1 / 20), env.CreateObject obj (3 / 20),
        env.CreateObject obj (3 / 10)] := rfl

theorem assembleGroups_levelGeometry (env : Env) (ids : List Nat) (trs : List TransformHandle)
    (k i : Nat) (gs : List MeshInfo) :
    levelGeometry (assembleGroups env ids trs k i gs)
      = gs.map fun g => (env.MakeStringId g.name, g.vertecies, g.indicies) := by
  induction gs generalizing i with
  | nil => rfl
  | cons g rest ih =>
    have := ih (i + 1)
    simp only [levelGeometry] at this
    simp [assembleGroups, levelGeometry, this]

theorem assembleLODs_levelGeometry (env : Env) (ids : List Nat) (trs : List TransformHandle)
    (k : Nat) (l : List ObjectInfo) :
    (assembleLODs env ids trs k l).map levelGeometry = l.map (descriptionGeometry env) := by
  induction l generalizing k with
  | nil => rfl
  | cons lod rest ih =>
    simp [assembleLODs, ih, assembleGroups_levelGeometry, descriptionGeometry]

theorem assembleGroups_totalIndices (env : Env) (ids : List Nat) (trs : List TransformHandle)
    (k i : Nat) (gs : List MeshInfo) :
    totalIndices (assembleGroups env ids trs k i gs)
      = (gs.map fun g => g.indicies.length).sum := by
  induction gs generalizing i with
  | nil => rfl
  | cons g rest ih =>
    have := ih (i + 1)
    simp only [totalIndices] at this
    simp [assembleGroups, totalIndices, this]

theorem assembleLODs_totalIndices (env : Env) (ids : List Nat) (trs : List TransformHandle)
    (k : Nat) (l : List ObjectInfo) :
    (assembleLODs env ids trs k l).map totalIndices = l.map descriptionIndices := by
  induction l generalizing k with
  | nil => rfl
  | cons lod rest ih =>
    simp [assembleLODs, ih, assembleGroups_totalIndices, descriptionIndices]

/-- C14: after a successful `LoadFromFile` the LOD table has, in this order, the level
assembled from the parsed object and the levels assembled from the descriptions that the
LOD generator creates from it for the factors 0.001, 0.01, 0.05, 0.15 and 0.3; this list
of factors is fixed and strictly increasing. -/
theorem LoadFromFile_LOD_order (env : Env) (filepath : String) (st : LoadState)
    (obj : ObjectInfo) (h : env.Load filepath = .ok obj) :
    (LoadFromFile env filepath st).2.mesh.LODs.map levelGeometry =
      [descriptionGeometry env obj,
        descriptionGeometry env (env.CreateObject obj (1 / 1000)),
        descriptionGeometry env (env.CreateObject obj (1 / 100)),
        descriptionGeometry env (env.CreateObject obj (1 / 20)),
        descriptionGeometry env (env.CreateObject obj (3 / 20)),
        descriptionGeometry env (env.CreateObject obj (3 / 10))] ∧
    LODfactors = [1 / 1000, 1 / 100, 1 / 20, 3 / 20, 3 / 10] ∧
    LODfactors.Pairwise (fun f g => f < g) := by
  rw [LoadFromFile_ok env filepath st obj h]
  refine ⟨?_, rfl, ?_⟩
  · simp only [assembleLODs_levelGeometry, LODdata_eq, List.map_cons, List.map_nil]
  · simp only [LODfactors, List.pairwise_cons, List.mem_cons, List.mem_singleton]
    norm_num

theorem LoadFromFile_LOD_order_witness :
    ((LoadFromFile decimatingEnv "model.obj" ⟨emptyMesh, none, freshEngine⟩).2.mesh.LODs.map
        levelGeometry =
      [descriptionGeometry decimatingEnv sampleObject,
        descriptionGeometry decimatingEnv (decimatingEnv.CreateObject sampleObject (1 / 1000)),
        descriptionGeometry decimatingEnv (decimatingEnv.CreateObject sampleObject (1 / 100)),
        descriptionGeometry decimatingEnv (decimatingEnv.CreateObject sampleObject (1 / 20)),
        descriptionGeometry decimatingEnv (decimatingEnv.CreateObject sampleObject (3 / 20)),
        descriptionGeometry decimatingEnv (decimatingEnv.CreateObject sampleObject (3 / 10))] ∧
    LODfactors = [1 / 1000, 1 / 100, 1 / 20, 3 / 20, 3 / 10] ∧
    LODfactors.Pairwise (fun f g => f < g)) :=
  LoadFromFile_LOD_order decimatingEnv "model.obj" ⟨emptyMesh, none, freshEngine⟩ sampleObject rfl

theorem LODfactors_increasing : LODfactors.Pairwise (fun f g => f < g) := by
  simp only [LODfactors, List.pairwise_cons, List.mem_cons, List.mem_singleton]
  norm_num

theorem LoadFromFile_totalIndices (env : Env) (filepath : String) (st : LoadState)
    (obj : ObjectInfo) (h : env.Load filepath = .ok obj) :
    (LoadFromFile env filepath st).2.mesh.LODs.map totalIndices =
      descriptionIndices obj ::
        LODfactors.map (fun f => descriptionIndices (env.CreateObject obj f)) := by
  rw [LoadFromFile_ok env filepath st obj h]
  simp only [assembleLODs_totalIndices, LODdata, List.map_cons, List.map_map, Function.comp_def]

/-! ## Texture slots and the texture map of one conversion -/

theorem makeTexAll_fst (env : Env) (xs : List (String × Option TextureHandle)) (s : TexState) :
    (makeTexAll env xs s).1 = xs.map fun x =>
      if x.1 = "" then x.2
      else (makeTexAll env xs s).2.textures.lookup (env.MakeStringId x.1) := by
  induction xs generalizing s with
  | nil => rfl
  | cons x rest ih =>
    simp only [makeTexAll, List.map_cons]
    congr 1
    · by_cases hx : x.1 = ""
      · rw [if_pos hx, hx, MAKE_TEX_fst_empty]
      · rw [if_neg hx, MAKE_TEX_fst env x.1 x.2 s hx, makeTexAll_snd, MAKE_TEX_snd]
        exact (foldl_stepTex_lookup_stable env _ _ _ (stepTex_lookup_self env s x.1 hx)).symm
    · exact ih (MAKE_TEX env x.1 x.2 s).2

theorem foldl_stepTex_lookup_mem (env : Env) (ps : List String) (s : TexState) (p : String)
    (hp : p ∈ ps) (hne : p ≠ "") :
    (ps.foldl (stepTex env) s).textures.lookup (env.MakeStringId p) ≠ none := by
  induction ps generalizing s with
  | nil => simp at hp
  | cons q rest ih =>
    rcases List.mem_cons.1 hp with e | hin
    · subst e
      rw [List.foldl_cons,
        foldl_stepTex_lookup_stable env rest _ _ (stepTex_lookup_self env s p hne)]
      exact stepTex_lookup_self env s p hne
    · exact ih (stepTex env s q) hin

/-- C19: for every raw material and every texture state, provided the texture slots of a
freshly created material resource are unbound, after `ConvertMaterial` each of the seven
slots (`map_Ka`, `map_Kd`, `map_Ks`, `map_Ke`, `map_d`, `map_height`, `map_normal`) whose raw
path is empty is unbound, and each slot whose raw path is non-empty holds the handle that
the texture map (as left by the call) stores under the key of that path; such a handle
exists. -/
theorem ConvertMaterial_slots (env : Env) (mat : MaterialInfo) (s : TexState)
    (hfresh : texSlots env.CreateMaterial = [none, none, none, none, none, none, none]) :
    texSlots (ConvertMaterial env mat s).1 = (texPaths mat).map (fun p =>
      if p = "" then none
      else (ConvertMaterial env mat s).2.textures.lookup (env.MakeStringId p)) ∧
    ∀ p ∈ texPaths mat, p ≠ "" →
      (ConvertMaterial env mat s).2.textures.lookup (env.MakeStringId p) ≠ none := by
  refine ⟨?_, ?_⟩
  · rw [(ConvertMaterial_makeTexAll env mat s).1, makeTexAll_fst,
      ← (ConvertMaterial_makeTexAll env mat s).2, hfresh]
    simp [texPaths]
  · intro p hp hne
    rw [ConvertMaterial_snd]
    exact foldl_stepTex_lookup_mem env _ s p hp hne

theorem ConvertMaterial_slots_witness :
    (texSlots (ConvertMaterial sampleEnv shinyMaterial ⟨[], ["a.png"]⟩).1
        = (texPaths shinyMaterial).map (fun p =>
          if p = "" then none
          else (ConvertMaterial sampleEnv shinyMaterial ⟨[], ["a.png"]⟩).2.textures.lookup
            (sampleEnv.MakeStringId p)) ∧
      ∀ p ∈ texPaths shinyMaterial, p ≠ "" →
        (ConvertMaterial sampleEnv shinyMaterial ⟨[], ["a.png"]⟩).2.textures.lookup
          (sampleEnv.MakeStringId p) ≠ none) ∧
    texSlots (ConvertMaterial sampleEnv shinyMaterial ⟨[], ["a.png"]⟩).1
      = [none, some 1, none, none, none, none, some 2] :=
  ⟨ConvertMaterial_slots sampleEnv shinyMaterial ⟨[], ["a.png"]⟩ (by decide), by decide⟩

theorem stepTex_keys (env : Env) (s : TexState) (p : String) (k : StringId) :
    (stepTex env s p).textures.lookup k ≠ none ↔
      (s.textures.lookup k ≠ none ∨ (p ≠ "" ∧ env.MakeStringId p = k)) := by
  by_cases ht : p = ""
  · rw [ht, stepTex_empty]
    simp
  · by_cases hc : s.textures.lookup (env.MakeStringId p) = none
    · rw [stepTex_create env s p ht hc]
      by_cases e : k = env.MakeStringId p
      · subst e
        simp [ht]
      · rw [lookup_cons_ne e]
        constructor
        · exact fun h => Or.inl h
        · rintro (h | ⟨_, h⟩)
          · exact h
          · exact absurd h.symm e
    · rw [stepTex_cached env s p hc]
      constructor
      · exact fun h => Or.inl h
      · rintro (h | ⟨_, h⟩)
        · exact h
        · rw [← h]; exact hc

theorem foldl_stepTex_keys (env : Env) (ps : List String) (s : TexState) (k : StringId) :
    (ps.foldl (stepTex env) s).textures.lookup k ≠ none ↔
      (s.textures.lookup k ≠ none ∨ ∃ p ∈ ps, p ≠ "" ∧ env.MakeStringId p = k) := by
  induction ps generalizing s with
  | nil => simp
  | cons q rest ih =>
    rw [List.foldl_cons, ih, stepTex_keys]
    constructor
    · rintro ((h | ⟨h1, h2⟩) | ⟨p, hp, h⟩)
      · exact Or.inl h
      · exact Or.inr ⟨q, List.mem_cons_self _ _, h1, h2⟩
      · exact Or.inr ⟨p, List.mem_cons_of_mem _ hp, h⟩
    · rintro (h | ⟨p, hp, h⟩)
      · exact Or.inl (Or.inl h)
      · rcases List.mem_cons.1 hp with e | hin
        · subst e
          exact Or.inl (Or.inr h)
        · exact Or.inr ⟨p, hin, h⟩

theorem foldl_stepTex_created (env : Env) (ps : List String) (s : TexState) :
    ∃ fresh, (ps.foldl (stepTex env) s).created = s.created ++ fresh ∧
      ∀ p ∈ fresh, p ∈ ps ∧ p ≠ "" ∧ s.textures.lookup (env.MakeStringId p) = none := by
  induction ps generalizing s with
  | nil => exact ⟨[], by simp⟩
  | cons q rest ih =>
    obtain ⟨fresh, hc, hf⟩ := ih (stepTex env s q)
    have hback : ∀ p, (stepTex env s q).textures.lookup (env.MakeStringId p) = none →
        s.textures.lookup (env.MakeStringId p) = none := by
      intro p hp
      by_contra hne
      rw [stepTex_lookup_stable env s q _ hne] at hp
      exact hne hp
    by_cases ht : q = ""
    · refine ⟨fresh, ?_, ?_⟩
      · rw [List.foldl_cons, hc, ht, stepTex_empty]
      · intro p hp
        exact ⟨List.mem_cons_of_mem _ (hf p hp).1, (hf p hp).2.1, hback p (hf p hp).2.2⟩
    · by_cases hl : s.textures.lookup (env.MakeStringId q) = none
      · refine ⟨q :: fresh, ?_, ?_⟩
        · rw [List.foldl_cons, hc, stepTex_create env s q ht hl]
          simp
        · intro p hp
          rcases List.mem_cons.1 hp with e | hin
          · subst e
            exact ⟨List.mem_cons_self _ _, ht, hl⟩
          · exact ⟨List.mem_cons_of_mem _ (hf p hin).1, (hf p hin).2.1,
              hback p (hf p hin).2.2⟩
      · refine ⟨fresh, ?_, ?_⟩
        · rw [List.foldl_cons, hc, stepTex_cached env s q hl]
        · intro p hp
          exact ⟨List.mem_cons_of_mem _ (hf p hp).1, (hf p hp).2.1, hback p (hf p hp).2.2⟩

theorem foldl_stepTex_all_empty (env : Env) (ps : List String) (s : TexState)
    (h : ∀ p ∈ ps, p = "") : ps.foldl (stepTex env) s = s := by
  induction ps generalizing s with
  | nil => rfl
  | cons q rest ih =>
    rw [List.foldl_cons, h q (List.mem_cons_self _ _), stepTex_empty]
    exact ih s fun p hp => h p (List.mem_cons_of_mem _ hp)

/-- C20: `ConvertMaterial` only grows the texture map. Every key bound before the call is
bound afterwards to the same handle; the keys bound after the call are exactly the keys
bound before it together with the keys of the non-empty texture paths of the material;
textures are created only for paths of the material whose key was not bound before (the
record of created textures is extended, never for a key already in the map); and a
material whose seven paths are all empty leaves the texture state unchanged. -/
theorem ConvertMaterial_cache (env : Env) (mat : MaterialInfo) (s : TexState) :
    (∀ k h, s.textures.lookup k = some h →
      (ConvertMaterial env mat s).2.textures.lookup k = some h) ∧
    (∀ k, (ConvertMaterial env mat s).2.textures.lookup k ≠ none ↔
      (s.textures.lookup k ≠ none ∨ ∃ p ∈ texPaths mat, p ≠ "" ∧ env.MakeStringId p = k)) ∧
    (∃ fresh, (ConvertMaterial env mat s).2.created = s.created ++ fresh ∧
      ∀ p ∈ fresh, p ∈ texPaths mat ∧ p ≠ "" ∧
        s.textures.lookup (env.MakeStringId p) = none) ∧
    ((∀ p ∈ texPaths mat, p = "") → (ConvertMaterial env mat s).2 = s) := by
  rw [ConvertMaterial_snd]
  refine ⟨?_, foldl_stepTex_keys env _ s, foldl_stepTex_created env _ s,
    foldl_stepTex_all_empty env _ s⟩
  intro k h hk
  rw [foldl_stepTex_lookup_stable env _ s k (by rw [hk]; simp), hk]

theorem ConvertMaterial_cache_example :
    (ConvertMaterial sampleEnv shinyMaterial ⟨[(7, 0)], ["tex.png"]⟩).2
      = ⟨[(5, 1), (7, 0)], ["tex.png", "n.png"]⟩ ∧
    (ConvertMaterial sampleEnv { shinyMaterial with map_Kd := "", map_normal := "" }
        ⟨[(7, 0)], ["tex.png"]⟩).2 = ⟨[(7, 0)], ["tex.png"]⟩ := by decide

/-! ## Index wrappers of the scripting layer -/

theorem toSizeT_of_nonneg (i : Int) (h0 : 0 ≤ i) (h1 : i ≤ 2147483647) :
    toSizeT i = i.toNat := by
  unfold toSizeT
  rw [Int.emod_eq_of_lt h0 (by omega)]

theorem StdVectorGetWrapper_contract {α : Type} (v : List α) (i : Int)
    (hhi : i ≤ 2147483647) : IndexGetContract StdVectorGetWrapper v i := by
  constructor
  · intro h0 h1
    have e := toSizeT_of_nonneg i h0 hhi
    have hlt : toSizeT i < v.length := by omega
    refine ⟨v.get ⟨toSizeT i, hlt⟩, ?_, ?_⟩
    · rw [← e, List.getElem?_eq_getElem hlt]
      rfl
    · unfold StdVectorGetWrapper
      rw [dif_pos ⟨h0, hlt⟩]
  · intro hn w hw
    unfold StdVectorGetWrapper
    rw [dif_neg]
    rintro ⟨h0, h1⟩
    have e := toSizeT_of_nonneg i h0 hhi
    exact hn ⟨h0, by omega⟩

theorem VectorIndexGetWrapper_contract {α : Type} (v : List α) (i : Int) :
    IndexGetContract VectorIndexGetWrapper v i := by
  constructor
  · intro h0 h1
    have hlt : i.toNat < v.length := by omega
    refine ⟨v.get ⟨i.toNat, hlt⟩, ?_, ?_⟩
    · rw [List.getElem?_eq_getElem hlt]
      rfl
    · unfold VectorIndexGetWrapper
      rw [dif_pos ⟨h0, h1⟩]
  · intro hn w hw
    unfold VectorIndexGetWrapper
    rw [dif_neg]
    rintro ⟨h0, h1⟩
    exact hn ⟨h0, by omega⟩

theorem StdVectorSetWrapper_contract {α : Type} (v : List α) (i : Int) (x : α)
    (hhi : i ≤ 2147483647) : IndexSetContract StdVectorSetWrapper v i x := by
  constructor
  · intro h0 h1
    have e := toSizeT_of_nonneg i h0 hhi
    have hlt : toSizeT i < v.length := by omega
    have hs : StdVectorSetWrapper v i x = (.ok (), v.set i.toNat x) := by
      unfold StdVectorSetWrapper
      rw [if_pos ⟨h0, hlt⟩, e]
    rw [hs]
    refine ⟨rfl, List.length_set _ _ _, ?_, ?_⟩
    · exact List.getElem?_set_self (by omega)
    · intro j hj
      exact List.getElem?_set_ne (Ne.symm hj)
  · intro hn
    unfold StdVectorSetWrapper
    rw [if_neg]
    rintro ⟨h0, h1⟩
    have e := toSizeT_of_nonneg i h0 hhi
    exact hn ⟨h0, by omega⟩

theorem VectorIndexSetWrapper_contract {α : Type} (v : List α) (i : Int) (x : α) :
    IndexSetContract VectorIndexSetWrapper v i x := by
  constructor
  · intro h0 h1
    have hs : VectorIndexSetWrapper v i x = (.ok (), v.set i.toNat x) := by
      unfold VectorIndexSetWrapper
      rw [if_pos ⟨h0, h1⟩]
    rw [hs]
    refine ⟨rfl, List.length_set _ _ _, ?_, ?_⟩
    · exact List.getElem?_set_self (by omega)
    · intro j hj
      exact List.getElem?_set_ne (Ne.symm hj)
  · intro hn
    unfold VectorIndexSetWrapper
    rw [if_neg hn]

theorem getWrappers_same {α : Type} :
    @StdVectorGetRefWrapper α = @StdVectorGetWrapper α ∧
    @LightContainerIndexGetWrapper α = @StdVectorGetWrapper α ∧
    @MatrixIndexGetWrapper α = @VectorIndexGetWrapper α ∧
    @MatrixIndexSetWrapper α = @VectorIndexSetWrapper α := ⟨rfl, rfl, rfl, rfl⟩

/-- C29: for every container `v` and every index `i` that a C `int` can hold, each of the five index getters
(`StdVectorGetWrapper`, `StdVectorGetRefWrapper`, `VectorIndexGetWrapper`,
`MatrixIndexGetWrapper`, `LightContainerIndexGetWrapper`) returns the element at position
`i` when `0 <= i < length v`, and otherwise raises the `IndexError` "index out of range",
independently of the elements of the container; in particular a negative index is always
rejected. The two outcomes differ, so an element is returned exactly when the index is in
range. -/
theorem index_getters (α : Type) (v : List α) (i : Int) (hhi : i ≤ 2147483647) :
    IndexGetContract StdVectorGetWrapper v i ∧
    IndexGetContract StdVectorGetRefWrapper v i ∧
    IndexGetContract VectorIndexGetWrapper v i ∧
    IndexGetContract MatrixIndexGetWrapper v i ∧
    IndexGetContract LightContainerIndexGetWrapper v i ∧
    (i < 0 →
      StdVectorGetWrapper v i = .error (.IndexError "index out of range") ∧
      StdVectorGetRefWrapper v i = .error (.IndexError "index out of range") ∧
      VectorIndexGetWrapper v i = .error (.IndexError "index out of range") ∧
      MatrixIndexGetWrapper v i = .error (.IndexError "index out of range") ∧
      LightContainerIndexGetWrapper v i = .error (.IndexError "index out of range")) := by
  have h1 := StdVectorGetWrapper_contract v i hhi
  have h2 := VectorIndexGetWrapper_contract v i
  obtain ⟨e1, e2, e3, _⟩ := @getWrappers_same α
  rw [e1, e2, e3]
  refine ⟨h1, h1, h2, h2, h1, ?_⟩
  intro hneg
  have hn : ¬ (0 ≤ i ∧ i < (v.length : Int)) := fun h => by omega
  exact ⟨h1.2 hn v rfl, h1.2 hn v rfl, h2.2 hn v rfl, h2.2 hn v rfl, h1.2 hn v rfl⟩

theorem index_getters_witness :
    (IndexGetContract StdVectorGetWrapper [10, 20, 30] 1 ∧
      IndexGetContract StdVectorGetRefWrapper [10, 20, 30] 1 ∧
      IndexGetContract VectorIndexGetWrapper [10, 20, 30] 1 ∧
      IndexGetContract MatrixIndexGetWrapper [10, 20, 30] 1 ∧
      IndexGetContract LightContainerIndexGetWrapper [10, 20, 30] 1 ∧
      ((1 : Int) < 0 →
        StdVectorGetWrapper [10, 20, 30] 1 = .error (.IndexError "index out of range") ∧
        StdVectorGetRefWrapper [10, 20, 30] 1 = .error (.IndexError "index out of range") ∧
        VectorIndexGetWrapper [10, 20, 30] 1 = .error (.IndexError "index out of range") ∧
        MatrixIndexGetWrapper [10, 20, 30] 1 = .error (.IndexError "index out of range") ∧
        LightContainerIndexGetWrapper [10, 20, 30] 1
          = .error (.IndexError "index out of range"))) ∧
    StdVectorGetWrapper [10, 20, 30] 1 = .ok 20 ∧
    StdVectorGetWrapper [10, 20, 30] 3 = .error (.IndexError "index out of range") ∧
    VectorIndexGetWrapper [10, 20, 30] (-1) = .error (.IndexError "index out of range") ∧
    LightContainerIndexGetWrapper [10, 20, 30] (-1)
      = .error (.IndexError "index out of range") :=
  ⟨index_getters Nat [10, 20, 30] 1 (by decide), rfl, rfl, rfl, rfl⟩

/-- C30: for every container `v`, every index `i` that a C `int` can hold and every value
`x`, each of the
three index setters (`VectorIndexSetWrapper`, `StdVectorSetWrapper`,
`MatrixIndexSetWrapper`) with `0 <= i < length v` succeeds, puts `x` at position `i` and
leaves the length and every other element unchanged; with `i` out of range it raises the
`IndexError` "index out of range" and leaves `v` as it was. -/
theorem index_setters (α : Type) (v : List α) (i : Int) (x : α) (hhi : i ≤ 2147483647) :
    IndexSetContract VectorIndexSetWrapper v i x ∧
    IndexSetContract StdVectorSetWrapper v i x ∧
    IndexSetContract MatrixIndexSetWrapper v i x := by
  obtain ⟨_, _, _, e4⟩ := @getWrappers_same α
  rw [e4]
  exact ⟨VectorIndexSetWrapper_contract v i x, StdVectorSetWrapper_contract v i x hhi,
    VectorIndexSetWrapper_contract v i x⟩

theorem index_setters_witness :
    (IndexSetContract VectorIndexSetWrapper [10, 20, 30] 1 7 ∧
      IndexSetContract StdVectorSetWrapper [10, 20, 30] 1 7 ∧
      IndexSetContract MatrixIndexSetWrapper [10, 20, 30] 1 7) ∧
    StdVectorSetWrapper [10, 20, 30] 1 7 = (.ok (), [10, 7, 30]) ∧
    StdVectorSetWrapper [10, 20, 30] 3 7
      = (.error (.IndexError "index out of range"), [10, 20, 30]) ∧
    VectorIndexSetWrapper [10, 20, 30] (-1) 7
      = (.error (.IndexError "index out of range"), [10, 20, 30]) :=
  ⟨index_setters Nat [10, 20, 30] 1 7 (by decide), rfl, rfl, rfl⟩

/-! ## Pushing and popping a level -/

/-- C28: for every mesh, `PushEmptyLOD` appends one level without submeshes: the levels
before it are unchanged and `GetLODCount` grows by exactly 1; `PushEmptyLOD` followed by
`PopLastLOD` gives back the mesh it started from, LOD table included; and neither
operation changes `currentLOD`, the bounding box or the instanced buffers. -/
theorem PushEmptyLOD_spec (m : Mesh) :
    m.PushEmptyLOD.LODs = m.LODs ++ [[]] ∧
    m.PushEmptyLOD.GetLODCount = m.GetLODCount + 1 ∧
    m.PushEmptyLOD.PopLastLOD = m ∧
    (m.PushEmptyLOD.currentLOD = m.currentLOD ∧ m.PushEmptyLOD.boundingBox = m.boundingBox ∧
      m.PushEmptyLOD.VBOs = m.VBOs ∧ m.PushEmptyLOD.VBLs = m.VBLs) ∧
    (m.PopLastLOD.currentLOD = m.currentLOD ∧ m.PopLastLOD.boundingBox = m.boundingBox ∧
      m.PopLastLOD.VBOs = m.VBOs ∧ m.PopLastLOD.VBLs = m.VBLs) := by
  refine ⟨rfl, ?_, ?_, ⟨rfl, rfl, rfl, rfl⟩, ?_⟩
  · simp [Mesh.PushEmptyLOD, Mesh.GetLODCount]
  · simp [Mesh.PushEmptyLOD, Mesh.PopLastLOD]
  · unfold Mesh.PopLastLOD
    split <;> exact ⟨rfl, rfl, rfl, rfl⟩

theorem PushEmptyLOD_example :
    instancedMesh.PushEmptyLOD.LODs
      = [[sampleSubMesh], [sampleSubMesh, { sampleSubMesh with transform := 6 }], []] ∧
    instancedMesh.PushEmptyLOD.PopLastLOD = instancedMesh := by decide

/-! ## Loading and the instanced buffers -/

theorem assembleGroups_instanced (env : Env) (ids : List Nat) (trs : List TransformHandle)
    (k i : Nat) (gs : List MeshInfo) :
    ∀ sm ∈ assembleGroups env ids trs k i gs, sm.instanced = [] := by
  induction gs generalizing i with
  | nil => intro sm hsm; simp [assembleGroups] at hsm
  | cons g rest ih =>
    intro sm hsm
    simp only [assembleGroups, List.mem_cons] at hsm
    rcases hsm with hsm | hsm
    · rw [hsm]
    · exact ih (i + 1) sm hsm

theorem assembleLODs_instanced (env : Env) (ids : List Nat) (trs : List TransformHandle)
    (k : Nat) (l : List ObjectInfo) :
    ∀ level ∈ assembleLODs env ids trs k l, ∀ sm ∈ level, sm.instanced = [] := by
  induction l generalizing k with
  | nil => intro level hl; simp [assembleLODs] at hl
  | cons lod rest ih =>
    intro level hl
    simp only [assembleLODs, List.mem_cons] at hl
    rcases hl with hl | hl
    · rw [hl]
      exact assembleGroups_instanced env ids trs k 0 lod.meshes
    · exact ih (k + 1) level hl

/-- C25: a successful `LoadFromFile` leaves the mesh's lists of instanced buffers and
layouts as they were (`GetBufferCount` is the same before and after), and none of the
submeshes it creates has an instanced buffer attached: buffers added before the load are
not applied to the new submeshes. -/
theorem LoadFromFile_buffers (env : Env) (filepath : String) (st : LoadState)
    (obj : ObjectInfo) (h : env.Load filepath = .ok obj) :
    (LoadFromFile env filepath st).2.mesh.VBOs = st.mesh.VBOs ∧
    (LoadFromFile env filepath st).2.mesh.VBLs = st.mesh.VBLs ∧
    (LoadFromFile env filepath st).2.mesh.GetBufferCount = st.mesh.GetBufferCount ∧
    ∀ level ∈ (LoadFromFile env filepath st).2.mesh.LODs, ∀ sm ∈ level, sm.instanced = [] := by
  rw [LoadFromFile_ok env filepath st obj h]
  exact ⟨rfl, rfl, rfl, assembleLODs_instanced _ _ _ _ _⟩

theorem LoadFromFile_buffers_witness :
    ((LoadFromFile sampleEnv "textured.obj" ⟨instancedMesh, none, freshEngine⟩).2.mesh.VBOs
        = instancedMesh.VBOs ∧
      (LoadFromFile sampleEnv "textured.obj" ⟨instancedMesh, none, freshEngine⟩).2.mesh.VBLs
        = instancedMesh.VBLs ∧
      (LoadFromFile sampleEnv "textured.obj"
        ⟨instancedMesh, none, freshEngine⟩).2.mesh.GetBufferCount = instancedMesh.GetBufferCount ∧
      ∀ level ∈ (LoadFromFile sampleEnv "textured.obj"
          ⟨instancedMesh, none, freshEngine⟩).2.mesh.LODs, ∀ sm ∈ level, sm.instanced = []) ∧
    instancedMesh.GetBufferCount = 1 :=
  ⟨LoadFromFile_buffers sampleEnv "textured.obj" ⟨instancedMesh, none, freshEngine⟩
    texturedObject rfl, by decide⟩

/-! ## Material ids -/

theorem pushMaterialIds_eq (gs : List MeshInfo) (acc : List Nat) :
    pushMaterialIds gs acc
      = acc ++ gs.filterMap fun g => if g.useTexture then g.material else none := by
  induction gs generalizing acc with
  | nil => simp [pushMaterialIds]
  | cons g rest ih =>
    cases hu : g.useTexture <;> cases hm : g.material <;>
      simp [pushMaterialIds, hu, hm, ih]

theorem loadMaterials_none (env : Env) (obj : ObjectInfo) (created : List String) :
    loadMaterials env obj none created
      = (List.replicate obj.meshes.length 0, none, created) := rfl

/-- C21: when `LoadFromFile` is given a renderer, the list of material ids is exactly the
list of the material offsets of the groups with `useTexture` and a non-null material, in
group order: such a group contributes its offset, any other group contributes nothing, so
the list has as many entries as there are such groups. -/
theorem loadMaterials_materialIds (env : Env) (obj : ObjectInfo) (renderer : MeshRenderer)
    (created : List String) :
    (loadMaterials env obj (some renderer) created).1
      = obj.meshes.filterMap (fun g => if g.useTexture then g.material else none) ∧
    (loadMaterials env obj (some renderer) created).1
      = (obj.meshes.filter fun g => g.useTexture && g.material.isSome).map
          (fun g => g.material.getD 0) ∧
    (loadMaterials env obj (some renderer) created).1.length
      = obj.meshes.countP (fun g => g.useTexture && g.material.isSome) := by
  have h1 : (loadMaterials env obj (some renderer) created).1
      = obj.meshes.filterMap (fun g => if g.useTexture then g.material else none) := by
    rw [loadMaterials_some, pushMaterialIds_eq, List.nil_append]
  have h2 : ∀ gs : List MeshInfo,
      gs.filterMap (fun g => if g.useTexture then g.material else none)
        = (gs.filter fun g => g.useTexture && g.material.isSome).map
            (fun g => g.material.getD 0) := by
    intro gs
    induction gs with
    | nil => rfl
    | cons g rest ih =>
      cases hu : g.useTexture <;> cases hm : g.material <;>
        simp [List.filterMap_cons, List.filter_cons, hu, hm, ih]
  refine ⟨h1, h1.trans (h2 _), ?_⟩
  rw [h1, h2, List.length_map, List.countP_eq_length_filter]

theorem loadMaterials_materialIds_example :
    (loadMaterials sampleEnv sampleObject (some emptyRenderer) []).1 = [0] ∧
    (loadMaterials sampleEnv
      { sampleObject with
        meshes := [{ texturedGroup with material := some 1 }, untexturedGroup,
          { texturedGroup with useTexture := false }, texturedGroup] }
      (some emptyRenderer) []).1 = [1, 0] := by decide

/-- C26: if every material reference of a group of the description, when present, is an
offset into the description's own materials, then every material id that `LoadFromFile`
records when it is given a renderer is strictly less than the number of raw materials, and
therefore a valid index into the renderer's material table as the same call leaves it. -/
theorem loadMaterials_ids_valid (env : Env) (obj : ObjectInfo) (renderer : MeshRenderer)
    (created : List String)
    (hinv : ∀ g ∈ obj.meshes, ∀ offset, g.material = some offset →
      offset < obj.materials.length) :
    ∀ id ∈ (loadMaterials env obj (some renderer) created).1,
      id < obj.materials.length ∧
      id < (materialsOf (loadMaterials env obj (some renderer) created).2.1).length := by
  intro id hid
  have hlen : (materialsOf (loadMaterials env obj (some renderer) created).2.1).length
      = obj.materials.length := by
    rw [loadMaterials_some]
    simp [materialsOf, convertAll_length]
  rw [loadMaterials_some, pushMaterialIds_eq, List.nil_append] at hid
  obtain ⟨g, hg, hgm⟩ := List.mem_filterMap.1 hid
  have hm : g.material = some id := by
    cases hu : g.useTexture
    · simp [hu] at hgm
    · simpa [hu] using hgm
  have := hinv g hg id hm
  rw [hlen]
  exact ⟨this, this⟩

theorem loadMaterials_ids_valid_witness :
    (∀ id ∈ (loadMaterials sampleEnv sampleObject (some emptyRenderer) []).1,
      id < sampleObject.materials.length ∧
      id < (materialsOf
        (loadMaterials sampleEnv sampleObject (some emptyRenderer) []).2.1).length) ∧
    (loadMaterials sampleEnv sampleObject (some emptyRenderer) []).1 = [0] ∧
    sampleObject.materials.length = 2 :=
  ⟨loadMaterials_ids_valid sampleEnv sampleObject emptyRenderer [] (by decide), by decide,
    by decide⟩

theorem LODdata_groups_le (env : Env) (obj : ObjectInfo)
    (hg : ∀ f ∈ LODfactors, (env.CreateObject obj f).meshes.length ≤ obj.meshes.length) :
    ∀ lod ∈ LODdata env obj, lod.meshes.length ≤ obj.meshes.length := by
  intro lod hl
  simp only [LODdata, List.mem_cons, List.mem_map] at hl
  rcases hl with rfl | ⟨f, hf, rfl⟩
  · exact Nat.le_refl _
  · exact hg f hf

/-- C27: when `LoadFromFile` is called with a null renderer on a file that the loader
accepts, no material is converted and no texture is created (the renderer stays null and
the record of created textures is unchanged), the list of material ids has one entry per
group and every entry is 0; and, the LOD generator returning no description with more
groups than the original, every submesh of every LOD level carries material id 0. -/
theorem LoadFromFile_null_renderer (env : Env) (filepath : String) (st : LoadState)
    (obj : ObjectInfo) (h : env.Load filepath = .ok obj) (hr : st.meshRenderer = none)
    (hg : ∀ f ∈ LODfactors, (env.CreateObject obj f).meshes.length ≤ obj.meshes.length) :
    (LoadFromFile env filepath st).2.meshRenderer = none ∧
    (LoadFromFile env filepath st).2.engine.Textures = st.engine.Textures ∧
    (loadMaterials env obj st.meshRenderer st.engine.Textures).1
      = List.replicate obj.meshes.length 0 ∧
    ∀ level ∈ (LoadFromFile env filepath st).2.mesh.LODs, ∀ sm ∈ level, sm.materialId = 0 := by
  rw [LoadFromFile_ok env filepath st obj h, hr, createTransforms_Textures]
  simp only [loadMaterials_none]
  refine ⟨trivial, trivial, trivial, ?_⟩
  intro level hl sm hsm
  have hb : ∀ lod ∈ LODdata env obj,
      lod.meshes.length ≤ (List.replicate obj.meshes.length 0).length ∧
      lod.meshes.length ≤ (createTransforms obj.meshes [] st.engine).1.length := by
    intro lod hlod
    have := LODdata_groups_le env obj hg lod hlod
    rw [createTransforms_length, List.length_replicate]
    simp only [List.length_nil, Nat.zero_add]
    exact ⟨this, this⟩
  exact List.eq_of_mem_replicate (assembleLODs_mem _ _ _ _ _ hb level hl sm hsm).1

theorem LoadFromFile_null_renderer_witness :
    ((LoadFromFile droppingEnv "model.obj" ⟨emptyMesh, none, freshEngine⟩).2.meshRenderer = none ∧
      (LoadFromFile droppingEnv "model.obj" ⟨emptyMesh, none, freshEngine⟩).2.engine.Textures
        = freshEngine.Textures ∧
      (loadMaterials droppingEnv sampleObject none freshEngine.Textures).1
        = List.replicate sampleObject.meshes.length 0 ∧
      ∀ level ∈ (LoadFromFile droppingEnv "model.obj" ⟨emptyMesh, none, freshEngine⟩).2.mesh.LODs,
        ∀ sm ∈ level, sm.materialId = 0) ∧
    (LoadFromFile droppingEnv "model.obj" ⟨emptyMesh, none, freshEngine⟩).2.mesh.LODs.map
      (List.map SubMesh.materialId) = [[0, 0], [0], [0], [0], [0], [0]] :=
  ⟨LoadFromFile_null_renderer droppingEnv "model.obj" ⟨emptyMesh, none, freshEngine⟩
    sampleObject rfl rfl (by
      intro f _
      show (List.take 1 sampleObject.meshes).length ≤ sampleObject.meshes.length
      decide), by decide⟩

/-! ## Submeshes, position by position -/

theorem assembleGroups_getElem? (env : Env) (ids : List Nat) (trs : List TransformHandle)
    (k i j : Nat) (gs : List MeshInfo) :
    (assembleGroups env ids trs k i gs)[j]? = gs[j]?.map fun g =>
      { materialId := ids.getD (i + j) (env.oobMaterialId k (i + j))
        transform := trs.getD (i + j) (env.oobTransform k (i + j))
        Name := env.MakeStringId g.name
        vertecies := g.vertecies
        indicies := g.indicies
        instanced := [] } := by
  induction gs generalizing i j with
  | nil => simp [assembleGroups]
  | cons g rest ih =>
    cases j with
    | zero => simp [assembleGroups]
    | succ j =>
      simp only [assembleGroups, List.getElem?_cons_succ]
      rw [ih (i + 1) j]
      have e : i + 1 + j = i + (j + 1) := by omega
      rw [e]

theorem assembleLODs_getElem? (env : Env) (ids : List Nat) (trs : List TransformHandle)
    (k0 k : Nat) (l : List ObjectInfo) :
    (assembleLODs env ids trs k0 l)[k]?
      = l[k]?.map fun lod => assembleGroups env ids trs (k0 + k) 0 lod.meshes := by
  induction l generalizing k0 k with
  | nil => simp [assembleLODs]
  | cons lod rest ih =>
    cases k with
    | zero => simp [assembleLODs]
    | succ k =>
      simp only [assembleLODs, List.getElem?_cons_succ]
      rw [ih (k0 + 1) k]
      have e : k0 + 1 + k = k0 + (k + 1) := by omega
      rw [e]

theorem createTransforms_eq (gs : List MeshInfo) (acc : List TransformHandle) (e : Engine) :
    createTransforms gs acc e =
      (acc ++ List.range' e.Transforms gs.length,
       { e with Transforms := e.Transforms + gs.length }) := by
  induction gs generalizing acc e with
  | nil => simp [createTransforms]
  | cons g rest ih =>
    simp only [createTransforms, ih, List.length_cons, List.range'_succ, List.append_assoc,
      List.singleton_append]
    have e1 : e.Transforms + 1 + rest.length = e.Transforms + (rest.length + 1) := by omega
    rw [e1]

/-- C22: after a successful `LoadFromFile`, for every description of the LOD sequence (the
original and each generated one, at level `k`), level `k` of the mesh has exactly one
submesh per group of that description, in group order, and the submesh at position `i`
carries the id of the name of group `i`, the vertex and index sequences of group `i`, the
`i`-th material id and the `i`-th transform handle of this load (whenever `materialIds`
and `submeshTransforms` have an entry at position `i`). -/
theorem LoadFromFile_submeshes (env : Env) (filepath : String) (st : LoadState)
    (obj : ObjectInfo) (h : env.Load filepath = .ok obj) :
    (LoadFromFile env filepath st).2.mesh.LODs.length = (LODdata env obj).length ∧
    ∀ (k : Nat) (lod : ObjectInfo), (LODdata env obj)[k]? = some lod →
      ∃ level : LOD, (LoadFromFile env filepath st).2.mesh.LODs[k]? = some level ∧
        level.length = lod.meshes.length ∧
        ∀ (i : Nat) (g : MeshInfo), lod.meshes[i]? = some g →
          ∃ sm : SubMesh, level[i]? = some sm ∧
            sm.Name = env.MakeStringId g.name ∧
            sm.vertecies = g.vertecies ∧ sm.indicies = g.indicies ∧
            (∀ id, (loadMaterials env obj st.meshRenderer st.engine.Textures).1[i]? = some id →
              sm.materialId = id) ∧
            (∀ t, (createTransforms obj.meshes [] st.engine).1[i]? = some t →
              sm.transform = t) := by
  rw [LoadFromFile_ok env filepath st obj h, createTransforms_Textures]
  refine ⟨assembleLODs_length _ _ _ _ _, ?_⟩
  intro k lod hk
  refine ⟨_, by rw [assembleLODs_getElem?, hk]; rfl, assembleGroups_length _ _ _ _ _ _, ?_⟩
  intro i g hi
  refine ⟨_, by rw [assembleGroups_getElem?, hi]; rfl, rfl, rfl, rfl, ?_, ?_⟩
  · intro id hid
    simp only [Nat.zero_add, List.getD_eq_getElem?_getD, hid, Option.getD_some]
  · intro t ht
    simp only [Nat.zero_add, List.getD_eq_getElem?_getD, ht, Option.getD_some]

theorem LoadFromFile_submeshes_witness :
    ((LoadFromFile decimatingEnv "textured.obj"
        ⟨emptyMesh, some emptyRenderer, ⟨4, []⟩⟩).2.mesh.LODs.length
        = (LODdata decimatingEnv texturedObject).length ∧
      ∀ (k : Nat) (lod : ObjectInfo), (LODdata decimatingEnv texturedObject)[k]? = some lod →
        ∃ level : LOD, (LoadFromFile decimatingEnv "textured.obj"
            ⟨emptyMesh, some emptyRenderer, ⟨4, []⟩⟩).2.mesh.LODs[k]? = some level ∧
          level.length = lod.meshes.length ∧
          ∀ (i : Nat) (g : MeshInfo), lod.meshes[i]? = some g →
            ∃ sm : SubMesh, level[i]? = some sm ∧
              sm.Name = decimatingEnv.MakeStringId g.name ∧
              sm.vertecies = g.vertecies ∧ sm.indicies = g.indicies ∧
              (∀ id, (loadMaterials decimatingEnv texturedObject (some emptyRenderer)
                  (Engine.mk 4 []).Textures).1[i]? = some id → sm.materialId = id) ∧
              (∀ t, (createTransforms texturedObject.meshes [] ⟨4, []⟩).1[i]? = some t →
                sm.transform = t)) ∧
    (LoadFromFile decimatingEnv "textured.obj"
        ⟨emptyMesh, some emptyRenderer, ⟨4, []⟩⟩).2.mesh.LODs.map (List.map SubMesh.core)
      = [[(0, 4, 8, texturedGroup.vertecies, [0, 1, 2, 2, 1, 3])],
         [(0, 4, 8, texturedGroup.vertecies, [0, 1, 2, 2, 1, 3])],
         [(0, 4, 8, texturedGroup.vertecies, [0, 1, 2, 2, 1, 3])],
         [(0, 4, 8, texturedGroup.vertecies, [0, 1, 2])],
         [(0, 4, 8, texturedGroup.vertecies, [0, 1, 2])],
         [(0, 4, 8, texturedGroup.vertecies, [0, 1, 2])]] :=
  ⟨LoadFromFile_submeshes decimatingEnv "textured.obj" ⟨emptyMesh, some emptyRenderer, ⟨4, []⟩⟩
    texturedObject rfl, by
      rw [LoadFromFile_ok decimatingEnv "textured.obj" _ texturedObject rfl]
      norm_num [assembleLODs, assembleGroups, LODdata, LODfactors, decimatingEnv, sampleEnv,
        texturedObject, texturedGroup, SubMesh.core, loadMaterials, pushMaterialIds,
        createTransforms, resize]
      decide⟩

/-! ## Transform handles -/

theorem LoadFromFile_transform_at (env : Env) (filepath : String) (st : LoadState)
    (obj : ObjectInfo) (h : env.Load filepath = .ok obj) (k : Nat) (level : LOD) (i : Nat)
    (sm : SubMesh) (hk : (LoadFromFile env filepath st).2.mesh.LODs[k]? = some level)
    (hi : level[i]? = some sm) (hlt : i < obj.meshes.length) :
    sm.transform = st.engine.Transforms + i := by
  rw [LoadFromFile_ok env filepath st obj h] at hk
  simp only [assembleLODs_getElem?, Option.map_eq_some'] at hk
  obtain ⟨lod, _, rfl⟩ := hk
  simp only [assembleGroups_getElem?, Option.map_eq_some'] at hi
  obtain ⟨g, _, rfl⟩ := hi
  have hr : (List.range' st.engine.Transforms obj.meshes.length)[i]?
      = some (st.engine.Transforms + i) := by
    rw [List.getElem?_range' _ _ hlt]
    simp
  simp only [createTransforms_eq, List.nil_append, Nat.zero_add, List.getD_eq_getElem?_getD, hr,
    Option.getD_some]

/-- C23: a successful `LoadFromFile` creates exactly one `Transform` component per group of
the original description (the handles `T, T+1, ...` where `T` is the number of components
created before), and in every LOD level the submesh at a position `i` below the number of
groups refers to the `i`-th of these handles; hence the submeshes at position `i` of any
two levels share one transform. -/
theorem LoadFromFile_transforms (env : Env) (filepath : String) (st : LoadState)
    (obj : ObjectInfo) (h : env.Load filepath = .ok obj) :
    (LoadFromFile env filepath st).2.engine.Transforms
      = st.engine.Transforms + obj.meshes.length ∧
    (createTransforms obj.meshes [] st.engine).1
      = List.range' st.engine.Transforms obj.meshes.length ∧
    (∀ (k : Nat) (level : LOD) (i : Nat) (sm : SubMesh),
      (LoadFromFile env filepath st).2.mesh.LODs[k]? = some level → level[i]? = some sm →
      i < obj.meshes.length → sm.transform = st.engine.Transforms + i) ∧
    (∀ (k1 k2 : Nat) (level1 level2 : LOD) (i : Nat) (sm1 sm2 : SubMesh),
      (LoadFromFile env filepath st).2.mesh.LODs[k1]? = some level1 →
      (LoadFromFile env filepath st).2.mesh.LODs[k2]? = some level2 →
      level1[i]? = some sm1 → level2[i]? = some sm2 → i < obj.meshes.length →
      sm1.transform = sm2.transform) := by
  refine ⟨?_, ?_, ?_, ?_⟩
  · rw [LoadFromFile_ok env filepath st obj h, createTransforms_eq]
  · rw [createTransforms_eq, List.nil_append]
  · intro k level i sm hk hi hlt
    exact LoadFromFile_transform_at env filepath st obj h k level i sm hk hi hlt
  · intro k1 k2 level1 level2 i sm1 sm2 h1 h2 hi1 hi2 hlt
    rw [LoadFromFile_transform_at env filepath st obj h k1 level1 i sm1 h1 hi1 hlt,
      LoadFromFile_transform_at env filepath st obj h k2 level2 i sm2 h2 hi2 hlt]

theorem LoadFromFile_transforms_witness :
    ((LoadFromFile sampleEnv "model.obj" ⟨emptyMesh, none, ⟨4, []⟩⟩).2.engine.Transforms
        = (Engine.mk 4 []).Transforms + sampleObject.meshes.length ∧
      (createTransforms sampleObject.meshes [] ⟨4, []⟩).1
        = List.range' (Engine.mk 4 []).Transforms sampleObject.meshes.length ∧
      (∀ (k : Nat) (level : LOD) (i : Nat) (sm : SubMesh),
        (LoadFromFile sampleEnv "model.obj" ⟨emptyMesh, none, ⟨4, []⟩⟩).2.mesh.LODs[k]?
          = some level → level[i]? = some sm →
        i < sampleObject.meshes.length → sm.transform = (Engine.mk 4 []).Transforms + i) ∧
      (∀ (k1 k2 : Nat) (level1 level2 : LOD) (i : Nat) (sm1 sm2 : SubMesh),
        (LoadFromFile sampleEnv "model.obj" ⟨emptyMesh, none, ⟨4, []⟩⟩).2.mesh.LODs[k1]?
          = some level1 →
        (LoadFromFile sampleEnv "model.obj" ⟨emptyMesh, none, ⟨4, []⟩⟩).2.mesh.LODs[k2]?
          = some level2 →
        level1[i]? = some sm1 → level2[i]? = some sm2 → i < sampleObject.meshes.length →
        sm1.transform = sm2.transform)) ∧
    (LoadFromFile sampleEnv "model.obj" ⟨emptyMesh, none, ⟨4, []⟩⟩).2.mesh.LODs.map
      (List.map SubMesh.transform) = [[4, 5], [4, 5], [4, 5], [4, 5], [4, 5], [4, 5]] ∧
    (LoadFromFile sampleEnv "model.obj" ⟨emptyMesh, none, ⟨4, []⟩⟩).2.engine.Transforms = 6 :=
  ⟨LoadFromFile_transforms sampleEnv "model.obj" ⟨emptyMesh, none, ⟨4, []⟩⟩ sampleObject rfl,
    by decide, by decide⟩

/-! ## The material table -/

theorem convertAll_getElem? (env : Env) (mats : List MaterialInfo) (s : TexState) (i : Nat) :
    (convertAll env mats s).1[i]? = mats[i]?.map fun mat =>
      (ConvertMaterial env mat (convertAll env (mats.take i) s).2).1 := by
  induction mats generalizing s i with
  | nil => simp [convertAll]
  | cons m rest ih =>
    cases i with
    | zero => simp [convertAll]
    | succ i => simp [convertAll, ih]

/-- C24: after a successful `LoadFromFile` with a renderer, the renderer's material table
has exactly one entry per raw material of the loaded description, whatever it held before;
entry `i` is the resource that `ConvertMaterial` returns for raw material `i` when it is
called on the texture state left by the conversions of the materials before `i`, the first
conversion starting from an empty texture map; and the textures created by the load are
those created by these conversions. -/
theorem LoadFromFile_material_table (env : Env) (filepath : String) (st : LoadState)
    (obj : ObjectInfo) (renderer : MeshRenderer)
    (h : env.Load filepath = .ok obj) (hr : st.meshRenderer = some renderer) :
    (materialsOf (LoadFromFile env filepath st).2.meshRenderer).length = obj.materials.length ∧
    (∀ (i : Nat) (mat : MaterialInfo), obj.materials[i]? = some mat →
      (materialsOf (LoadFromFile env filepath st).2.meshRenderer)[i]? =
        some (some (ConvertMaterial env mat
          (convertAll env (obj.materials.take i) ⟨[], st.engine.Textures⟩).2).1)) ∧
    (LoadFromFile env filepath st).2.engine.Textures
      = (convertAll env obj.materials ⟨[], st.engine.Textures⟩).2.created := by
  rw [LoadFromFile_ok env filepath st obj h, hr, loadMaterials_some, createTransforms_Textures]
  refine ⟨by simp [materialsOf, convertAll_length], ?_, rfl⟩
  intro i mat hi
  simp only [materialsOf, List.getElem?_map, convertAll_getElem?, hi, Option.map_some']

theorem LoadFromFile_material_table_witness :
    ((materialsOf (LoadFromFile sampleEnv "textured.obj"
        ⟨emptyMesh, some ⟨[none, none, none]⟩, freshEngine⟩).2.meshRenderer).length
        = texturedObject.materials.length ∧
      (∀ (i : Nat) (mat : MaterialInfo), texturedObject.materials[i]? = some mat →
        (materialsOf (LoadFromFile sampleEnv "textured.obj"
          ⟨emptyMesh, some ⟨[none, none, none]⟩, freshEngine⟩).2.meshRenderer)[i]? =
          some (some (ConvertMaterial sampleEnv mat
            (convertAll sampleEnv (texturedObject.materials.take i)
              ⟨[], freshEngine.Textures⟩).2).1)) ∧
      (LoadFromFile sampleEnv "textured.obj"
        ⟨emptyMesh, some ⟨[none, none, none]⟩, freshEngine⟩).2.engine.Textures
        = (convertAll sampleEnv texturedObject.materials ⟨[], freshEngine.Textures⟩).2.created) ∧
    (materialsOf (LoadFromFile sampleEnv "textured.obj"
      ⟨emptyMesh, some ⟨[none, none, none]⟩, freshEngine⟩).2.meshRenderer).map
        (Option.map texSlots)
      = [some [none, some 0, none, none, none, none, none],
         some [none, some 0, none, none, none, none, some 1]] :=
  ⟨LoadFromFile_material_table sampleEnv "textured.obj"
    ⟨emptyMesh, some ⟨[none, none, none]⟩, freshEngine⟩ texturedObject ⟨[none, none, none]⟩
    rfl rfl, by decide⟩

end MxEngine
